import Mathlib

/-!
Verification of the EvoLabeler control-loop core.

This file gives a shallow embedding, in Lean 4, of the decision and control
logic of the EvoLabeler backend (the round controller, the uncertainty
analyzer, the acquisition quality filter, the data quality gate, the
evaluation agent and the model guardian), and proves or refutes the frozen
claims about it.

Modelling conventions, used throughout:

* Python floats are modelled by exact rationals.  Python's `round(x, n)`
  (round-half-to-even) is `pyRound n`, and `int(x)` (truncation toward
  zero) is `pyTruncInt`.
* Python dictionaries of a fixed shape are modelled by structures.  A key
  read with `d.get(k, default)` is modelled by a total field, so an absent
  key coincides with the field holding the default value.
* Cryptographic digests (MD5, SHA-256) are only ever compared for
  equality, fed to a seeded RNG, or stored; they are modelled by a
  collision-free stand-in that returns its input (`md5Hex`, `sha256Hex`),
  or kept abstract where the claim requires it (`SampleEnv`).
* Python's `sorted` (a stable sort) is modelled by the stable insertion
  sort `isort`; Python string comparison (code-point lexicographic) is
  modelled by `strLeB`.
-/

/-! ## Python numeric primitives -/

/-- Floor of a rational as an integer, computably (`q.num / q.den` with
integer division rounding toward negative infinity). -/
def ratFloor (q : ℚ) : ℤ := q.num / (q.den : ℤ)

/-- Python `int(x)`: truncation toward zero. -/
def pyTruncInt (q : ℚ) : ℤ := Int.tdiv q.num (q.den : ℤ)

/-- Round-half-to-even of a rational to an integer (the rounding mode of
Python's builtin `round`). -/
def halfEven (q : ℚ) : ℤ :=
  let f := ratFloor q
  if q - f < 1/2 then f
  else if q - f > 1/2 then f + 1
  else if f % 2 = 0 then f else f + 1

/-- Python `round(q, nd)`: round-half-to-even at `nd` decimal digits. -/
def pyRound (nd : ℕ) (q : ℚ) : ℚ := (halfEven (q * 10 ^ nd) : ℚ) / 10 ^ nd

theorem ratFloor_eq_floor (q : ℚ) : ratFloor q = ⌊q⌋ := Rat.floor_def.symm

theorem halfEven_nonneg {q : ℚ} (h : 0 ≤ q) : 0 ≤ halfEven q := by
  unfold halfEven
  rw [ratFloor_eq_floor]
  have hf : (0 : ℤ) ≤ ⌊q⌋ := Int.floor_nonneg.mpr h
  dsimp only
  split
  · exact hf
  · split
    · omega
    · split <;> omega

theorem halfEven_le_of_le {q : ℚ} {m : ℤ} (h : q ≤ m) : halfEven q ≤ m := by
  unfold halfEven
  rw [ratFloor_eq_floor]
  have hf : ⌊q⌋ ≤ m := by
    have := Int.floor_le_floor (α := ℚ) h
    rwa [Int.floor_intCast] at this
  dsimp only
  split
  · exact hf
  · rename_i h1
    have hq : (⌊q⌋ : ℚ) ≤ q := Int.floor_le q
    split
    · rename_i h2
      -- q - ⌊q⌋ > 1/2, so ⌊q⌋ < q ≤ m hence ⌊q⌋ + 1 ≤ m
      have : (⌊q⌋ : ℚ) < q := by linarith
      have : ⌊q⌋ < m := by
        by_contra hcon
        have hm : m ≤ ⌊q⌋ := by omega
        have : (m : ℚ) ≤ ⌊q⌋ := by exact_mod_cast hm
        linarith
      omega
    · rename_i h2
      have heq : q - ⌊q⌋ = 1/2 := by linarith
      have : (⌊q⌋ : ℚ) < q := by linarith
      have hlt : ⌊q⌋ < m := by
        by_contra hcon
        have hm : m ≤ ⌊q⌋ := by omega
        have : (m : ℚ) ≤ ⌊q⌋ := by exact_mod_cast hm
        linarith
      split <;> omega

theorem pyRound_nonneg {q : ℚ} (nd : ℕ) (h : 0 ≤ q) : 0 ≤ pyRound nd q := by
  unfold pyRound
  apply div_nonneg
  · exact_mod_cast halfEven_nonneg (by positivity)
  · positivity

theorem pyRound_le_one {q : ℚ} (nd : ℕ) (h : q ≤ 1) : pyRound nd q ≤ 1 := by
  unfold pyRound
  rw [div_le_one (by positivity)]
  have : q * 10 ^ nd ≤ ((10 ^ nd : ℤ) : ℚ) := by
    push_cast
    nlinarith [pow_pos (show (0:ℚ) < 10 by norm_num) nd]
  exact_mod_cast halfEven_le_of_le this

/-! ## Stable insertion sort (model of Python's stable `sorted`) -/

/-- Insert `a` into `l` before the first element `b` with `le a b`.
Combined with `isort`, which inserts earlier elements last, this is a
stable sort: an element is placed before the later elements it ties with. -/
def insertLe {α : Type} (le : α → α → Bool) (a : α) : List α → List α
  | [] => [a]
  | b :: l => if le a b then a :: b :: l else b :: insertLe le a l

/-- Stable insertion sort with a boolean comparator. -/
def isort {α : Type} (le : α → α → Bool) : List α → List α
  | [] => []
  | a :: l => insertLe le a (isort le l)

theorem insertLe_perm {α : Type} (le : α → α → Bool) (a : α) (l : List α) :
    (insertLe le a l).Perm (a :: l) := by
  induction l with
  | nil => simp [insertLe]
  | cons b t ih =>
    simp only [insertLe]
    split
    · exact List.Perm.refl _
    · exact (ih.cons b).trans (List.Perm.swap a b t)

theorem isort_perm {α : Type} (le : α → α → Bool) (l : List α) :
    (isort le l).Perm l := by
  induction l with
  | nil => exact List.Perm.refl _
  | cons a t ih => exact (insertLe_perm le a (isort le t)).trans (ih.cons a)

theorem mem_insertLe {α : Type} {le : α → α → Bool} {a x : α} {l : List α} :
    x ∈ insertLe le a l ↔ x = a ∨ x ∈ l := by
  have := (insertLe_perm le a l).mem_iff (a := x)
  simpa using this

theorem insertLe_pairwise {α : Type} {le : α → α → Bool}
    (htot : ∀ a b, le a b = true ∨ le b a = true)
    (htrans : ∀ a b c, le a b = true → le b c = true → le a c = true)
    {a : α} {l : List α}
    (hl : l.Pairwise (fun x y => le x y = true)) :
    (insertLe le a l).Pairwise (fun x y => le x y = true) := by
  induction l with
  | nil => simp [insertLe]
  | cons b t ih =>
    rcases List.pairwise_cons.mp hl with ⟨hb, ht⟩
    simp only [insertLe]
    split
    · rename_i hab
      refine List.pairwise_cons.mpr ⟨?_, hl⟩
      intro x hx
      rcases List.mem_cons.mp hx with hx | hx
      · exact hx ▸ hab
      · exact htrans a b x hab (hb x hx)
    · rename_i hab
      have hba : le b a = true := by
        rcases htot a b with h | h
        · exact absurd h hab
        · exact h
      refine List.pairwise_cons.mpr ⟨?_, ih ht⟩
      intro x hx
      rcases mem_insertLe.mp hx with hx | hx
      · exact hx ▸ hba
      · exact hb x hx

theorem isort_pairwise {α : Type} {le : α → α → Bool}
    (htot : ∀ a b, le a b = true ∨ le b a = true)
    (htrans : ∀ a b c, le a b = true → le b c = true → le a c = true)
    (l : List α) :
    (isort le l).Pairwise (fun x y => le x y = true) := by
  induction l with
  | nil => simp [isort]
  | cons a t ih => exact insertLe_pairwise htot htrans ih

theorem isort_eq_of_perm {α : Type} {le : α → α → Bool}
    (htot : ∀ a b, le a b = true ∨ le b a = true)
    (htrans : ∀ a b c, le a b = true → le b c = true → le a c = true)
    (hanti : ∀ a b, le a b = true → le b a = true → a = b)
    {l₁ l₂ : List α} (h : l₁.Perm l₂) :
    isort le l₁ = isort le l₂ := by
  haveI : IsAntisymm α (fun x y => le x y = true) := ⟨hanti⟩
  refine List.eq_of_perm_of_sorted ?_ (isort_pairwise htot htrans l₁)
    (isort_pairwise htot htrans l₂)
  exact (isort_perm le l₁).trans (h.trans (isort_perm le l₂).symm)

/-! ## Python string comparison (code-point lexicographic) -/

/-- Lexicographic comparison of character lists by code point; this is the
order Python uses on `str`. -/
def charsLe : List Char → List Char → Bool
  | [], _ => true
  | _ :: _, [] => false
  | a :: as, b :: bs =>
    if a.toNat < b.toNat then true
    else if b.toNat < a.toNat then false
    else charsLe as bs

/-- Python string `<=`. -/
def strLeB (a b : String) : Bool := charsLe a.data b.data

theorem charsLe_total : ∀ as bs, charsLe as bs = true ∨ charsLe bs as = true := by
  intro as
  induction as with
  | nil => intro bs; left; rfl
  | cons a as ih =>
    intro bs
    cases bs with
    | nil => right; rfl
    | cons b bs =>
      simp only [charsLe]
      rcases Nat.lt_trichotomy a.toNat b.toNat with h | h | h
      · left; simp [h]
      · have h1 : ¬ a.toNat < b.toNat := by omega
        have h2 : ¬ b.toNat < a.toNat := by omega
        rcases ih bs with hc | hc <;> simp [h1, h2, hc]
      · right; simp [h]

theorem charsLe_cons (a b : Char) (as bs : List Char) :
    charsLe (a :: as) (b :: bs) =
      (if a.toNat < b.toNat then true
       else if b.toNat < a.toNat then false
       else charsLe as bs) := rfl

theorem charsLe_trans :
    ∀ as bs cs, charsLe as bs = true → charsLe bs cs = true → charsLe as cs = true := by
  intro as
  induction as with
  | nil => intro bs cs _ _; rfl
  | cons a as ih =>
    intro bs cs h1 h2
    cases bs with
    | nil => exact absurd h1 (by simp [charsLe])
    | cons b bs =>
      cases cs with
      | nil => exact absurd h2 (by simp [charsLe])
      | cons c cs =>
        rw [charsLe_cons] at h1 h2 ⊢
        by_cases hab : a.toNat < b.toNat
        · have hcb : ¬ c.toNat < b.toNat := by
            intro hcon
            rw [if_neg (by omega), if_pos hcon] at h2
            exact absurd h2 (by decide)
          rw [if_pos (by omega)]
        · by_cases hba : b.toNat < a.toNat
          · rw [if_neg hab, if_pos hba] at h1
            exact absurd h1 (by decide)
          · rw [if_neg hab, if_neg hba] at h1
            by_cases hbc : b.toNat < c.toNat
            · rw [if_pos (by omega)]
            · by_cases hcb : c.toNat < b.toNat
              · rw [if_neg hbc, if_pos hcb] at h2
                exact absurd h2 (by decide)
              · rw [if_neg hbc, if_neg hcb] at h2
                rw [if_neg (by omega), if_neg (by omega)]
                exact ih bs cs h1 h2

theorem charsLe_antisymm :
    ∀ as bs, charsLe as bs = true → charsLe bs as = true → as = bs := by
  intro as
  induction as with
  | nil =>
    intro bs _ h2
    cases bs with
    | nil => rfl
    | cons b bs => exact absurd h2 (by simp [charsLe])
  | cons a as ih =>
    intro bs h1 h2
    cases bs with
    | nil => exact absurd h1 (by simp [charsLe])
    | cons b bs =>
      rw [charsLe_cons] at h1 h2
      by_cases hab : a.toNat < b.toNat
      · rw [if_neg (by omega), if_pos hab] at h2
        exact absurd h2 (by decide)
      · by_cases hba : b.toNat < a.toNat
        · rw [if_neg hab, if_pos hba] at h1
          exact absurd h1 (by decide)
        · rw [if_neg hab, if_neg hba] at h1
          rw [if_neg hba, if_neg hab] at h2
          have htn : a.toNat = b.toNat := by omega
          have hval : a = b := Char.ext (UInt32.toNat.inj htn)
          rw [hval, ih bs h1 h2]

theorem strLeB_total (a b : String) : strLeB a b = true ∨ strLeB b a = true :=
  charsLe_total a.data b.data

theorem strLeB_trans (a b c : String) :
    strLeB a b = true → strLeB b c = true → strLeB a c = true :=
  charsLe_trans a.data b.data c.data

theorem strLeB_antisymm (a b : String) :
    strLeB a b = true → strLeB b a = true → a = b := by
  intro h1 h2
  cases a; cases b
  exact congrArg String.mk (charsLe_antisymm _ _ h1 h2)

/-- Python `sorted` on a list of strings. -/
def pySorted (l : List String) : List String := isort strLeB l

theorem pySorted_perm (l : List String) : (pySorted l).Perm l := isort_perm _ l

theorem pySorted_eq_of_perm {l₁ l₂ : List String} (h : l₁.Perm l₂) :
    pySorted l₁ = pySorted l₂ :=
  isort_eq_of_perm strLeB_total strLeB_trans strLeB_antisymm h

/-! ## Shared data model

Records for the dictionaries that flow between the agents.  Fields are
total; a key read in Python with `d.get(k, default)` corresponds to the
field holding the default (see the header).  Presentation-only fields
(human-readable `message` / `reason` / `summary` strings built by f-string
formatting) are omitted from the embedded records; no verified property
mentions them. -/

/-- One detection of one object in one image
(`{class_id, x, y, width, height, confidence}`). -/
structure Detection where
  class_id : ℤ
  x : ℚ
  y : ℚ
  width : ℚ
  height : ℚ
  confidence : ℚ
deriving DecidableEq

/-- A pseudo-labelled image.  `quality_score` is `none` when the label
dictionary has no `quality_score` key yet. -/
structure PseudoLabel where
  image_reference : String
  detections : List Detection
  quality_score : Option ℚ
deriving DecidableEq

/-- Evaluation metrics (`_empty_metrics` template of the evaluation agent).
`per_class` maps a class name to its AP (`{"ap": ...}` in the source). -/
structure EvalMetrics where
  mAP50 : ℚ
  mAP50_95 : ℚ
  precision : ℚ
  recall' : ℚ
  val_loss : ℚ
  train_loss : ℚ
  per_class : List (String × ℚ)
deriving DecidableEq

/-- `EvaluationAgent._empty_metrics`: the all-zero metrics record. -/
def empty_metrics : EvalMetrics :=
  { mAP50 := 0, mAP50_95 := 0, precision := 0, recall' := 0,
    val_loss := 0, train_loss := 0, per_class := [] }

/-- The continuation decision record produced once per round. -/
structure ContinuationDecision where
  should_continue : Bool
  should_rollback : Bool
  action : String
  confidence : ℚ
deriving DecidableEq

/-- Association-list get with a default, modelling `dict.get(k, d)`. -/
def alGet {σ ν : Type} [DecidableEq σ] (l : List (σ × ν)) (k : σ) (d : ν) : ν :=
  match l with
  | [] => d
  | (k', v) :: t => if k' = k then v else alGet t k d

/-- Increment the counter for `k`, modelling `counter[k] += 1` on a Python
dict/Counter (first occurrence order is preserved). -/
def bumpCount {σ : Type} [DecidableEq σ] (l : List (σ × ℕ)) (k : σ) : List (σ × ℕ) :=
  match l with
  | [] => [(k, 1)]
  | (k', v) :: t => if k' = k then (k', v + 1) :: t else (k', v) :: bumpCount t k

/-- Build a counter over a key list, modelling `collections.Counter`. -/
def countAll {σ : Type} [DecidableEq σ] (keys : List σ) : List (σ × ℕ) :=
  keys.foldl bumpCount []

/-! ## Acquisition agent (`acquisition_agent.py`)

The quality-filter pipeline: per-image quality scoring, diversity
de-duplication by truncated feature hash, and curriculum ordering. -/

namespace AcquisitionAgent

def PSEUDO_LABEL_CONFIDENCE_THRESHOLD : ℚ := 0.5

def HIGH_CONFIDENCE_THRESHOLD : ℚ := 0.7

def MIN_DETECTIONS_THRESHOLD : ℕ := 1

def DIVERSITY_HASH_SIZE : ℕ := 16

def CURRICULUM_DIFFICULTY_GROUPS : ℕ := 3

/-- `AcquisitionAgent._calculate_quality_score`: quality of one image's
detections, `0.5 * avg_confidence + 0.3 * high_conf_ratio
+ 0.2 * consistency_score`, rounded to 4 digits; `0.0` for no detections. -/
def calculate_quality_score (detections : List Detection) : ℚ :=
  if detections = [] then 0
  else
    let confidences := detections.map (·.confidence)
    let n : ℚ := (confidences.length : ℚ)
    let avg_confidence := confidences.sum / n
    let high_conf_count := confidences.countP (fun c => HIGH_CONFIDENCE_THRESHOLD ≤ c)
    let high_conf_frac := (high_conf_count : ℚ) / n
    let consistency_score :=
      if 1 < confidences.length then
        let variance := (confidences.map (fun c => (c - avg_confidence) ^ 2)).sum / n
        1 - min (variance * 4) 1
      else 1
    pyRound 4 (0.5 * avg_confidence + 0.3 * high_conf_frac + 0.2 * consistency_score)

/-- `AcquisitionAgent._compute_feature_hash`: the sorted
`"class_id:int(x*10):int(y*10)"` feature strings of a label, joined with
`"|"` and hashed with MD5.  The MD5 digest is modelled by its input string
(collision-free stand-in). -/
def compute_feature_hash (label : PseudoLabel) : String :=
  let features := label.detections.map (fun det =>
    toString det.class_id ++ (":") ++ toString (pyTruncInt (det.x * 10)) ++ (":")
      ++ toString (pyTruncInt (det.y * 10)))
  String.intercalate ("|") (pySorted features)

/-- The bucket key used by `_ensure_diversity`: the feature hash truncated
to `DIVERSITY_HASH_SIZE` characters. -/
def bucketKey (label : PseudoLabel) : String :=
  (compute_feature_hash label).take DIVERSITY_HASH_SIZE

/-- The `for label in labels` loop of `AcquisitionAgent._ensure_diversity`:
keep a label while its bucket holds fewer than `max_similar` labels. -/
def diversityLoop (max_similar : ℕ) :
    List PseudoLabel → List (String × ℕ) → List PseudoLabel
  | [], _ => []
  | l :: rest, hash_buckets =>
    let key := bucketKey l
    let cnt := alGet hash_buckets key 0
    if cnt < max_similar then l :: diversityLoop max_similar rest (bumpCount hash_buckets key)
    else diversityLoop max_similar rest hash_buckets

/-- `AcquisitionAgent._ensure_diversity`: after the loop the source logs
the retention percentage `len(diverse_labels)/len(labels)*100`, which
raises `ZeroDivisionError` when `labels` is empty; modelled by the error
branch of `Except`. -/
def ensure_diversity (labels : List PseudoLabel) (max_similar : ℕ := 3) :
    Except String (List PseudoLabel) :=
  let diverse_labels := diversityLoop max_similar labels []
  if labels.length = 0 then .error ("ZeroDivisionError")
  else .ok diverse_labels

/-- `["easy", "medium", "hard"][difficulty_level]`. -/
def difficultyName : ℕ → String
  | 0 => "easy"
  | 1 => "medium"
  | _ => "hard"

/-- `AcquisitionAgent._sort_by_curriculum`: sort descending by
`label.get("quality_score", 0)` (Python's sort is stable) and tag each
position `i` with `["easy","medium","hard"][min(i // group_size, 2)]`
(or `"easy"` throughout when `group_size == 0`).  The source mutates each
label dict; the embedding returns the label paired with its tag. -/
def sort_by_curriculum (labels : List PseudoLabel) : List (PseudoLabel × String) :=
  let sorted_labels :=
    isort (fun a b => decide ((b.quality_score.getD 0) ≤ (a.quality_score.getD 0))) labels
  let total := sorted_labels.length
  let group_size := if 0 < total then total / CURRICULUM_DIFFICULTY_GROUPS else 1
  sorted_labels.mapIdx (fun i label =>
    (label,
     if 0 < group_size then difficultyName (min (i / group_size) (CURRICULUM_DIFFICULTY_GROUPS - 1))
     else difficultyName 0))

end AcquisitionAgent

/-- Claim C9: for every detection list whose confidences all lie in [0,1],
the per-image quality score 0.5·avg_confidence + 0.3·high_confidence_ratio
+ 0.2·consistency lies in [0,1], and it equals 0 for an empty detection
list. -/
theorem quality_score_bounds (detections : List Detection)
    (h : ∀ d ∈ detections, 0 ≤ d.confidence ∧ d.confidence ≤ 1) :
    0 ≤ AcquisitionAgent.calculate_quality_score detections ∧
      AcquisitionAgent.calculate_quality_score detections ≤ 1 ∧
      (detections = [] → AcquisitionAgent.calculate_quality_score detections = 0) := by
  unfold AcquisitionAgent.calculate_quality_score
  by_cases hd : detections = []
  · simp [hd]
  · rw [if_neg hd]
    dsimp only
    refine ?_
    set confidences := detections.map (·.confidence) with hconf
    have hlen : 0 < confidences.length := by
      simpa [hconf] using List.length_pos.mpr hd
    have hn : (0:ℚ) < (confidences.length : ℚ) := by exact_mod_cast hlen
    have hmem : ∀ c ∈ confidences, 0 ≤ c ∧ c ≤ 1 := by
      intro c hc
      rcases List.mem_map.mp hc with ⟨d, hd', rfl⟩
      exact h d hd'
    have hsum0 : 0 ≤ confidences.sum := List.sum_nonneg (fun c hc => (hmem c hc).1)
    have hsum1 : confidences.sum ≤ (confidences.length : ℚ) := by
      have := List.sum_le_card_nsmul confidences 1 (fun c hc => (hmem c hc).2)
      simpa [nsmul_eq_mul] using this
    set avg := confidences.sum / (confidences.length : ℚ) with havg
    have havg0 : 0 ≤ avg := div_nonneg hsum0 (le_of_lt hn)
    have havg1 : avg ≤ 1 := by
      rw [havg, div_le_one hn]; exact hsum1
    set hcf := ((confidences.countP (fun c => AcquisitionAgent.HIGH_CONFIDENCE_THRESHOLD ≤ c) : ℚ)
        / (confidences.length : ℚ)) with hhcf
    have hhcf0 : 0 ≤ hcf := div_nonneg (by positivity) (le_of_lt hn)
    have hhcf1 : hcf ≤ 1 := by
      rw [hhcf, div_le_one hn]
      exact_mod_cast List.countP_le_length _
    set cons := (if 1 < confidences.length then
        1 - min ((confidences.map (fun c => (c - avg) ^ 2)).sum / (confidences.length : ℚ) * 4) 1
      else 1) with hcons
    have hvar0 : 0 ≤ (confidences.map (fun c => (c - avg) ^ 2)).sum / (confidences.length : ℚ) := by
      apply div_nonneg _ (le_of_lt hn)
      apply List.sum_nonneg
      intro x hx
      rcases List.mem_map.mp hx with ⟨c, _, rfl⟩
      positivity
    have hcons0 : 0 ≤ cons := by
      rw [hcons]
      split
      · have hmin : min ((confidences.map (fun c => (c - avg) ^ 2)).sum
            / (confidences.length : ℚ) * 4) 1 ≤ 1 := min_le_right _ _
        linarith
      · norm_num
    have hcons1 : cons ≤ 1 := by
      rw [hcons]
      split
      · have hmin : 0 ≤ min ((confidences.map (fun c => (c - avg) ^ 2)).sum
            / (confidences.length : ℚ) * 4) 1 :=
          le_min (by linarith) (by norm_num)
        linarith
      · norm_num
    constructor
    · exact pyRound_nonneg 4 (by nlinarith)
    constructor
    · exact pyRound_le_one 4 (by nlinarith)
    · intro hfalse; exact absurd hfalse hd

/-- The three-detection example image of the specification. -/
def exampleDetections : List Detection :=
  [ { class_id := 0, x := 0, y := 0, width := 0, height := 0, confidence := 9/10 },
    { class_id := 0, x := 0, y := 0, width := 0, height := 0, confidence := 92/100 },
    { class_id := 0, x := 0, y := 0, width := 0, height := 0, confidence := 1/10 } ]

/-- Witness for `quality_score_bounds` at a concrete detection list
(the three-detection example of the specification). -/
theorem quality_score_bounds_witness :
    (∀ d ∈ exampleDetections, 0 ≤ d.confidence ∧ d.confidence ≤ 1) ∧
      0 ≤ AcquisitionAgent.calculate_quality_score exampleDetections := by
  have hmem : ∀ d ∈ exampleDetections, 0 ≤ d.confidence ∧ d.confidence ≤ 1 := by
    intro d hd
    simp only [exampleDetections, List.mem_cons, List.not_mem_nil, or_false] at hd
    rcases hd with rfl | rfl | rfl <;> exact ⟨by norm_num, by norm_num⟩
  exact ⟨hmem, (quality_score_bounds _ hmem).1⟩

theorem alGet_bumpCount_self {σ : Type} [DecidableEq σ] (l : List (σ × ℕ)) (k : σ) :
    alGet (bumpCount l k) k 0 = alGet l k 0 + 1 := by
  induction l with
  | nil => simp [bumpCount, alGet]
  | cons p t ih =>
    obtain ⟨k', v⟩ := p
    by_cases h : k' = k
    · simp [bumpCount, alGet, h]
    · simp [bumpCount, alGet, h, ih]

theorem alGet_bumpCount_ne {σ : Type} [DecidableEq σ] (l : List (σ × ℕ)) {k k' : σ}
    (h : k ≠ k') : alGet (bumpCount l k) k' 0 = alGet l k' 0 := by
  induction l with
  | nil => simp [bumpCount, alGet, h]
  | cons p t ih =>
    obtain ⟨k'', v⟩ := p
    by_cases h2 : k'' = k
    · subst h2
      simp [bumpCount, alGet, h]
    · simp [bumpCount, alGet, h2, ih]

theorem diversityLoop_sublist (m : ℕ) :
    ∀ (ls : List PseudoLabel) (buckets : List (String × ℕ)),
      (AcquisitionAgent.diversityLoop m ls buckets).Sublist ls := by
  intro ls
  induction ls with
  | nil => intro buckets; simp [AcquisitionAgent.diversityLoop]
  | cons l rest ih =>
    intro buckets
    simp only [AcquisitionAgent.diversityLoop]
    split
    · exact (ih _).cons₂ l
    · exact (ih _).cons l

theorem diversityLoop_bucket_bound (m : ℕ) :
    ∀ (ls : List PseudoLabel) (buckets : List (String × ℕ)) (k : String),
      ((AcquisitionAgent.diversityLoop m ls buckets).filter
          (fun l => AcquisitionAgent.bucketKey l = k)).length
        ≤ m - alGet buckets k 0 := by
  intro ls
  induction ls with
  | nil => intro buckets k; simp [AcquisitionAgent.diversityLoop]
  | cons l rest ih =>
    intro buckets k
    simp only [AcquisitionAgent.diversityLoop]
    split
    · rename_i hcnt
      by_cases hk : AcquisitionAgent.bucketKey l = k
      · rw [hk]
        rw [List.filter_cons_of_pos (by simpa using hk)]
        have hrec := ih (bumpCount buckets k) k
        rw [alGet_bumpCount_self] at hrec
        have hlt : alGet buckets k 0 < m := by rwa [hk] at hcnt
        simp only [List.length_cons]
        omega
      · rw [List.filter_cons_of_neg (by simpa using hk)]
        have hrec := ih (bumpCount buckets (AcquisitionAgent.bucketKey l)) k
        rwa [alGet_bumpCount_ne _ hk] at hrec
    · exact ih buckets k

/-- Claim C10: the diversity de-duplication step is not total at the empty
input: for the empty label list `_ensure_diversity` raises
`ZeroDivisionError` (its retention-percentage logging divides by the input
length), while for every non-empty input it returns a subsequence of the
input keeping at most 3 labels per truncated-feature-hash bucket in
encounter order. -/
theorem ensure_diversity_empty_raises :
    AcquisitionAgent.ensure_diversity [] = .error ("ZeroDivisionError") ∧
    ∀ ls : List PseudoLabel, ls ≠ [] →
      ∃ r, AcquisitionAgent.ensure_diversity ls = .ok r ∧ r.Sublist ls ∧
        ∀ k : String,
          (r.filter (fun l => AcquisitionAgent.bucketKey l = k)).length ≤ 3 := by
  constructor
  · rfl
  · intro ls hne
    refine ⟨AcquisitionAgent.diversityLoop 3 ls [], ?_, ?_, ?_⟩
    · unfold AcquisitionAgent.ensure_diversity
      rw [if_neg (by simpa using List.length_pos.mpr hne |>.ne')]
    · exact diversityLoop_sublist 3 ls []
    · intro k
      have := diversityLoop_bucket_bound 3 ls [] k
      simpa [alGet] using this

/-- A concrete pseudo-label used by witnesses. -/
def exampleLabelA : PseudoLabel :=
  { image_reference := "imgA", detections := [], quality_score := none }

/-- Witness for `ensure_diversity_empty_raises` at the non-empty singleton
input `[exampleLabelA]`. -/
theorem ensure_diversity_empty_raises_witness :
    ([exampleLabelA] : List PseudoLabel) ≠ [] ∧
    ∃ r, AcquisitionAgent.ensure_diversity [exampleLabelA] = .ok r ∧
      r.Sublist [exampleLabelA] ∧
      ∀ k : String,
        (r.filter (fun l => AcquisitionAgent.bucketKey l = k)).length ≤ 3 := by
  have hne : ([exampleLabelA] : List PseudoLabel) ≠ [] := by simp
  exact ⟨hne, ensure_diversity_empty_raises.2 [exampleLabelA] hne⟩

/-! ## Curriculum ordering (claim C7) -/

/-- The quality-score comparator of `_sort_by_curriculum` (descending by
`label.get("quality_score", 0)`). -/
def cmpQ : PseudoLabel → PseudoLabel → Bool :=
  fun a b => decide ((b.quality_score.getD 0) ≤ (a.quality_score.getD 0))

/-- The difficulty tag the source assigns to sorted position `i` in a list
of `N` labels. -/
def curriculumTag (N i : ℕ) : String :=
  let g := if 0 < N then N / 3 else 1
  if 0 < g then AcquisitionAgent.difficultyName (min (i / g) 2)
  else AcquisitionAgent.difficultyName 0

theorem sort_by_curriculum_eq (labels : List PseudoLabel) :
    AcquisitionAgent.sort_by_curriculum labels =
      (isort cmpQ labels).mapIdx
        (fun i l => (l, curriculumTag (isort cmpQ labels).length i)) := rfl

/-- Rank of a difficulty tag, `easy < medium < hard`. -/
def diffRank (s : String) : ℕ :=
  if s = ("easy") then 0 else if s = ("medium") then 1 else 2

theorem diffRank_difficultyName (n : ℕ) :
    diffRank (AcquisitionAgent.difficultyName n) = min n 2 := by
  match n with
  | 0 => decide
  | 1 => decide
  | n + 2 =>
    show diffRank ("hard") = min (n + 2) 2
    have : min (n + 2) 2 = 2 := by omega
    rw [this]
    decide

theorem curriculumTag_easy_of_lt {N i : ℕ} (h3 : 3 ≤ N) (h : i < N / 3) :
    curriculumTag N i = ("easy") := by
  unfold curriculumTag
  have h0 : 0 < N := by omega
  have hg : 0 < N / 3 := Nat.div_pos (by omega) (by omega)
  simp only [if_pos h0, if_pos hg]
  rw [Nat.div_eq_of_lt h]
  rfl

theorem curriculumTag_medium_of_mid {N i : ℕ} (h3 : 3 ≤ N)
    (h1 : N / 3 ≤ i) (h2 : i < 2 * (N / 3)) :
    curriculumTag N i = ("medium") := by
  unfold curriculumTag
  have h0 : 0 < N := by omega
  have hg : 0 < N / 3 := Nat.div_pos (by omega) (by omega)
  simp only [if_pos h0, if_pos hg]
  have hdiv : i / (N / 3) = 1 := Nat.div_eq_of_lt_le (by omega) (by omega)
  rw [hdiv]
  rfl

theorem curriculumTag_hard_of_ge {N i : ℕ} (h3 : 3 ≤ N) (h : 2 * (N / 3) ≤ i) :
    curriculumTag N i = ("hard") := by
  unfold curriculumTag
  have h0 : 0 < N := by omega
  have hg : 0 < N / 3 := Nat.div_pos (by omega) (by omega)
  simp only [if_pos h0, if_pos hg]
  have hdiv : 2 ≤ i / (N / 3) := by
    rw [Nat.le_div_iff_mul_le hg]
    omega
  have : min (i / (N / 3)) 2 = 2 := by omega
  rw [this]
  rfl

theorem curriculumTag_small {N : ℕ} (h : N = 1 ∨ N = 2) (i : ℕ) :
    curriculumTag N i = ("easy") := by
  unfold curriculumTag
  rcases h with rfl | rfl <;> rfl

theorem curriculumTag_mono (N : ℕ) {i j : ℕ} (hij : i ≤ j) :
    diffRank (curriculumTag N i) ≤ diffRank (curriculumTag N j) := by
  unfold curriculumTag
  dsimp only
  by_cases hgp : 0 < (if 0 < N then N / 3 else 1)
  · rw [if_pos hgp, if_pos hgp, diffRank_difficultyName, diffRank_difficultyName]
    have := Nat.div_le_div_right (c := if 0 < N then N / 3 else 1) hij
    omega
  · rw [if_neg hgp, if_neg hgp]

theorem curriculumTag_cases (N i : ℕ) :
    curriculumTag N i = ("easy") ∨ curriculumTag N i = ("medium") ∨
      curriculumTag N i = ("hard") := by
  unfold curriculumTag
  dsimp only
  by_cases hgp : 0 < (if 0 < N then N / 3 else 1)
  · rw [if_pos hgp]
    generalize i / (if 0 < N then N / 3 else 1) = d
    have h : min d 2 = 0 ∨ min d 2 = 1 ∨ min d 2 = 2 := by omega
    rcases h with h | h | h <;> rw [h] <;> simp [AcquisitionAgent.difficultyName]
  · rw [if_neg hgp]
    simp [AcquisitionAgent.difficultyName]

theorem map_fst_mapIdx_pair {α β : Type} (s : List α) (t : ℕ → α → β) :
    ((s.mapIdx (fun i a => (a, t i a))).map Prod.fst) = s := by
  apply List.ext_getElem
  · simp
  · intro i h1 h2
    simp [List.getElem_mapIdx]

theorem pairwise_mapIdx_pair {α β : Type} (s : List α) (t : ℕ → α → β)
    (R : (α × β) → (α × β) → Prop)
    (h : ∀ i j (hi : i < s.length) (hj : j < s.length), i < j →
      R (s[i], t i s[i]) (s[j], t j s[j])) :
    (s.mapIdx (fun i a => (a, t i a))).Pairwise R := by
  rw [List.pairwise_iff_getElem]
  intro i j hi hj hij
  have hi' : i < s.length := by simpa using hi
  have hj' : j < s.length := by simpa using hj
  simp only [List.getElem_mapIdx]
  exact h i j hi' hj' hij

theorem filter_three_partition {α : Type} (p q r : α → Bool) (l : List α)
    (h : ∀ x ∈ l, (p x = true ∧ q x = false ∧ r x = false) ∨
                  (p x = false ∧ q x = true ∧ r x = false) ∨
                  (p x = false ∧ q x = false ∧ r x = true)) :
    (l.filter p).length + (l.filter q).length + (l.filter r).length = l.length := by
  induction l with
  | nil => simp
  | cons a tl ih =>
    have ha := h a (List.mem_cons_self a tl)
    have htl := ih (fun x hx => h x (List.mem_cons_of_mem a hx))
    rcases ha with ⟨h1, h2, h3⟩ | ⟨h1, h2, h3⟩ | ⟨h1, h2, h3⟩ <;>
      · simp only [List.filter_cons, h1, h2, h3, if_pos, if_neg, List.length_cons,
          Bool.false_eq_true, ite_false, ite_true]
        omega

/-- The difficulty assignment exactly as the claim words it: partition the
descending-sorted list into 3 equal-size groups of `total / 3` labels in
the order easy, medium, hard, the last group absorbing any remainder. -/
def claimDifficulty (total i : ℕ) : String :=
  let g := total / 3
  if i < g then ("easy") else if i < 2 * g then ("medium") else ("hard")

/-- Concrete labels used by counterexamples and witnesses. -/
def exampleLabelB : PseudoLabel :=
  { image_reference := "imgB", detections := [], quality_score := some (1/2) }

def exampleLabelC : PseudoLabel :=
  { image_reference := "imgC", detections := [], quality_score := some (3/4) }

/-- Claim C7 counterexample: for a single candidate label the code tags it
"easy" (its `group_size` is `1 // 3 = 0`, taking the degenerate branch),
whereas the claim's partition into three equal groups with the last
absorbing the remainder would put the single label in the "hard" group. -/
theorem curriculum_singleton_all_easy :
    (AcquisitionAgent.sort_by_curriculum [exampleLabelB]).map Prod.snd = [("easy")] ∧
      claimDifficulty 1 0 = ("hard") := by
  constructor
  · with_unfolding_all rfl
  · rfl

/-- Claim C7 (amended): the curriculum step sorts descending by quality
score and tags positions with easy/medium/hard; the three difficulty
groups partition all N labels exactly once, ordered easy → medium → hard
along the descending-quality order; for N ≥ 3 the groups have sizes
(N/3, N/3, N/3 + N%3) (last absorbs the remainder), but for N = 1 or
N = 2 the code tags every label "easy" (not "hard" as the claim's
remainder rule would demand). -/
theorem curriculum_partition (labels : List PseudoLabel) :
    ((AcquisitionAgent.sort_by_curriculum labels).map Prod.fst).Perm labels ∧
    ((AcquisitionAgent.sort_by_curriculum labels).map
        (fun p => p.1.quality_score.getD 0)).Pairwise (· ≥ ·) ∧
    ((AcquisitionAgent.sort_by_curriculum labels).filter
        (fun p => decide (p.2 = ("easy")))).length
      + ((AcquisitionAgent.sort_by_curriculum labels).filter
          (fun p => decide (p.2 = ("medium")))).length
      + ((AcquisitionAgent.sort_by_curriculum labels).filter
          (fun p => decide (p.2 = ("hard")))).length
      = labels.length ∧
    (AcquisitionAgent.sort_by_curriculum labels).Pairwise
      (fun a b => diffRank a.2 ≤ diffRank b.2) ∧
    (3 ≤ labels.length →
      ((AcquisitionAgent.sort_by_curriculum labels).filter
          (fun p => decide (p.2 = ("easy")))).length = labels.length / 3 ∧
      ((AcquisitionAgent.sort_by_curriculum labels).filter
          (fun p => decide (p.2 = ("medium")))).length = labels.length / 3 ∧
      ((AcquisitionAgent.sort_by_curriculum labels).filter
          (fun p => decide (p.2 = ("hard")))).length
        = labels.length / 3 + labels.length % 3) ∧
    ((labels.length = 1 ∨ labels.length = 2) →
      ∀ p ∈ AcquisitionAgent.sort_by_curriculum labels, p.2 = ("easy")) := by
  rw [sort_by_curriculum_eq]
  set s := isort cmpQ labels with hs
  have hMN : s.length = labels.length := (isort_perm cmpQ labels).length_eq
  set out := s.mapIdx (fun i l => (l, curriculumTag s.length i)) with hout
  have hlen : out.length = s.length := by rw [hout]; simp
  have hget : ∀ (i : ℕ) (hi : i < out.length) (hi2 : i < s.length),
      out[i] = (s[i], curriculumTag s.length i) := by
    intro i hi hi2
    simp [hout, List.getElem_mapIdx]
  have hmem : ∀ x ∈ out, ∃ i, i < s.length ∧ x.2 = curriculumTag s.length i := by
    intro x hx
    obtain ⟨i, hi, hxe⟩ := List.mem_iff_getElem.mp hx
    have hi2 : i < s.length := by rw [hlen] at hi; exact hi
    refine ⟨i, hi2, ?_⟩
    rw [← hxe, hget i hi hi2]
  refine ⟨?_, ?_, ?_, ?_, ?_, ?_⟩
  · -- permutation
    rw [hout, map_fst_mapIdx_pair]
    exact isort_perm cmpQ labels
  · -- descending quality order
    have hcomp : out.map (fun p => p.1.quality_score.getD 0)
        = s.map (fun l => l.quality_score.getD 0) := by
      rw [show (fun p : PseudoLabel × String => p.1.quality_score.getD 0)
          = (fun l : PseudoLabel => l.quality_score.getD 0) ∘ Prod.fst from rfl]
      rw [← List.map_map, hout, map_fst_mapIdx_pair]
    rw [hcomp, List.pairwise_map]
    have hsorted := @isort_pairwise _ cmpQ
      (fun a b => by
        unfold cmpQ
        rcases le_total (b.quality_score.getD 0) (a.quality_score.getD 0) with h | h
        · exact Or.inl (decide_eq_true h)
        · exact Or.inr (decide_eq_true h))
      (fun a b c h1 h2 => by
        unfold cmpQ at h1 h2 ⊢
        exact decide_eq_true (le_trans (of_decide_eq_true h2) (of_decide_eq_true h1)))
      labels
    refine hsorted.imp ?_
    intro a b h
    exact of_decide_eq_true h
  · -- the three groups partition all N labels
    have hpart := filter_three_partition
      (fun p : PseudoLabel × String => decide (p.2 = ("easy")))
      (fun p : PseudoLabel × String => decide (p.2 = ("medium")))
      (fun p : PseudoLabel × String => decide (p.2 = ("hard")))
      out
      (by
        intro x hx
        obtain ⟨i, hi, hx2⟩ := hmem x hx
        rcases curriculumTag_cases s.length i with h | h | h <;> rw [h] at hx2
        · exact Or.inl ⟨by simp only [hx2]; rfl, by simp only [hx2]; rfl,
            by simp only [hx2]; rfl⟩
        · exact Or.inr (Or.inl ⟨by simp only [hx2]; rfl, by simp only [hx2]; rfl,
            by simp only [hx2]; rfl⟩)
        · exact Or.inr (Or.inr ⟨by simp only [hx2]; rfl, by simp only [hx2]; rfl,
            by simp only [hx2]; rfl⟩))
    rw [hpart, hlen]
    exact hMN
  · -- difficulty ranks are monotone along the list
    rw [hout]
    apply pairwise_mapIdx_pair
    intro i j hi hj hij
    exact curriculumTag_mono s.length (le_of_lt hij)
  · -- group sizes for N ≥ 3
    intro h3
    have hM3 : 3 ≤ s.length := by omega
    have hdm := Nat.div_add_mod s.length 3
    have hgM : s.length / 3 ≤ s.length := Nat.div_le_self s.length 3
    have htake : ∀ x ∈ out.take (s.length / 3), x.2 = ("easy") := by
      intro x hx
      obtain ⟨i, hi, hxe⟩ := List.mem_iff_getElem.mp hx
      have hig : i < s.length / 3 := by
        rw [List.length_take, hlen] at hi; omega
      have hiO : i < out.length := by rw [hlen]; omega
      rw [List.getElem_take] at hxe
      rw [← hxe, hget i hiO (by omega)]
      exact curriculumTag_easy_of_lt hM3 hig
    have hmid : ∀ x ∈ (out.drop (s.length / 3)).take (s.length / 3),
        x.2 = ("medium") := by
      intro x hx
      obtain ⟨i, hi, hxe⟩ := List.mem_iff_getElem.mp hx
      have hig : i < s.length / 3 := by
        rw [List.length_take, List.length_drop, hlen] at hi; omega
      have hiO : s.length / 3 + i < out.length := by rw [hlen]; omega
      rw [List.getElem_take, List.getElem_drop] at hxe
      rw [← hxe, hget _ hiO (by omega)]
      exact curriculumTag_medium_of_mid hM3 (by omega) (by omega)
    have hhard : ∀ x ∈ (out.drop (s.length / 3)).drop (s.length / 3),
        x.2 = ("hard") := by
      intro x hx
      obtain ⟨i, hi, hxe⟩ := List.mem_iff_getElem.mp hx
      have hig : i < s.length - 2 * (s.length / 3) := by
        rw [List.length_drop, List.length_drop, hlen] at hi; omega
      have hiO : s.length / 3 + (s.length / 3 + i) < out.length := by rw [hlen]; omega
      rw [List.getElem_drop, List.getElem_drop] at hxe
      rw [← hxe, hget _ hiO (by omega)]
      exact curriculumTag_hard_of_ge hM3 (by omega)
    have hdecomp : out.take (s.length / 3)
        ++ ((out.drop (s.length / 3)).take (s.length / 3)
            ++ (out.drop (s.length / 3)).drop (s.length / 3)) = out := by
      rw [List.take_append_drop, List.take_append_drop]
    have hlenA : (out.take (s.length / 3)).length = s.length / 3 := by
      rw [List.length_take, hlen]; omega
    have hlenB : ((out.drop (s.length / 3)).take (s.length / 3)).length
        = s.length / 3 := by
      rw [List.length_take, List.length_drop, hlen]; omega
    have hlenC : ((out.drop (s.length / 3)).drop (s.length / 3)).length
        = s.length - 2 * (s.length / 3) := by
      rw [List.length_drop, List.length_drop, hlen]; omega
    have key : ∀ (p : PseudoLabel × String → Bool),
        (out.filter p).length = ((out.take (s.length / 3)).filter p).length
          + (((out.drop (s.length / 3)).take (s.length / 3)).filter p).length
          + (((out.drop (s.length / 3)).drop (s.length / 3)).filter p).length := by
      intro p
      conv_lhs => rw [← hdecomp]
      rw [List.filter_append, List.filter_append, List.length_append, List.length_append]
      omega
    refine ⟨?_, ?_, ?_⟩
    · rw [key]
      have h1 : (out.take (s.length / 3)).filter (fun p => decide (p.2 = ("easy")))
          = out.take (s.length / 3) :=
        List.filter_eq_self.mpr (fun a ha => decide_eq_true (htake a ha))
      have h2 : ((out.drop (s.length / 3)).take (s.length / 3)).filter
          (fun p => decide (p.2 = ("easy"))) = [] :=
        List.filter_eq_nil_iff.mpr (fun a ha => by rw [hmid a ha]; simp)
      have h3' : ((out.drop (s.length / 3)).drop (s.length / 3)).filter
          (fun p => decide (p.2 = ("easy"))) = [] :=
        List.filter_eq_nil_iff.mpr (fun a ha => by rw [hhard a ha]; simp)
      rw [h1, h2, h3', hlenA]
      simp only [List.length_nil, Nat.add_zero]
      omega
    · rw [key]
      have h1 : (out.take (s.length / 3)).filter (fun p => decide (p.2 = ("medium")))
          = [] :=
        List.filter_eq_nil_iff.mpr (fun a ha => by rw [htake a ha]; simp)
      have h2 : ((out.drop (s.length / 3)).take (s.length / 3)).filter
          (fun p => decide (p.2 = ("medium")))
          = (out.drop (s.length / 3)).take (s.length / 3) :=
        List.filter_eq_self.mpr (fun a ha => decide_eq_true (hmid a ha))
      have h3' : ((out.drop (s.length / 3)).drop (s.length / 3)).filter
          (fun p => decide (p.2 = ("medium"))) = [] :=
        List.filter_eq_nil_iff.mpr (fun a ha => by rw [hhard a ha]; simp)
      rw [h1, h2, h3', hlenB]
      simp only [List.length_nil, Nat.add_zero, Nat.zero_add]
      omega
    · rw [key]
      have h1 : (out.take (s.length / 3)).filter (fun p => decide (p.2 = ("hard")))
          = [] :=
        List.filter_eq_nil_iff.mpr (fun a ha => by rw [htake a ha]; simp)
      have h2 : ((out.drop (s.length / 3)).take (s.length / 3)).filter
          (fun p => decide (p.2 = ("hard"))) = [] :=
        List.filter_eq_nil_iff.mpr (fun a ha => by rw [hmid a ha]; simp)
      have h3' : ((out.drop (s.length / 3)).drop (s.length / 3)).filter
          (fun p => decide (p.2 = ("hard")))
          = (out.drop (s.length / 3)).drop (s.length / 3) :=
        List.filter_eq_self.mpr (fun a ha => decide_eq_true (hhard a ha))
      rw [h1, h2, h3', hlenC]
      simp only [List.length_nil, Nat.zero_add]
      omega
  · -- N = 1 or N = 2: everything is tagged "easy"
    intro hsm p hp
    obtain ⟨i, hi, hp2⟩ := hmem p hp
    have hMsm : s.length = 1 ∨ s.length = 2 := by omega
    rw [hp2]
    exact curriculumTag_small hMsm i

/-- Witness for `curriculum_partition` at a concrete three-label list,
where the group-size clause applies (3 ≤ N). -/
theorem curriculum_partition_witness :
    3 ≤ ([exampleLabelA, exampleLabelB, exampleLabelC] : List PseudoLabel).length ∧
    ((AcquisitionAgent.sort_by_curriculum
        [exampleLabelA, exampleLabelB, exampleLabelC]).filter
        (fun p => decide (p.2 = ("easy")))).length
      = ([exampleLabelA, exampleLabelB, exampleLabelC] : List PseudoLabel).length / 3 := by
  constructor
  · simp
  · exact ((curriculum_partition
      [exampleLabelA, exampleLabelB, exampleLabelC]).2.2.2.2.1 (by simp)).1

/-! ## Data quality gate (`data_quality_gate.py`)

Five pre-training admission checks; all must pass (fail-closed). -/

namespace DataQualityGate

/-- Single quality-gate check result (presentation `message` omitted). -/
structure GateCheck where
  name : String
  passed : Bool
  value : ℚ
  threshold : ℚ
deriving DecidableEq

/-- Aggregate quality-gate result (presentation `summary` omitted). -/
structure GateResult where
  passed : Bool
  checks : List GateCheck
  failures : List GateCheck
deriving DecidableEq

def MIN_SAMPLE_COUNT : ℕ := 10

def MIN_QUALITY_SCORE : ℚ := 0.4

def MAX_CLASS_IMBALANCE_FACTOR : ℚ := 10.0

def MIN_DIVERSITY_SCORE : ℚ := 0.3

def MAX_DUPLICATE_FRACTION : ℚ := 0.20

/-- `DataQualityGate._check_sample_count`. -/
def check_sample_count (labels : List PseudoLabel) : GateCheck :=
  let count := labels.length
  { name := ("sample_count"),
    passed := decide (MIN_SAMPLE_COUNT ≤ count),
    value := (count : ℚ),
    threshold := (MIN_SAMPLE_COUNT : ℚ) }

/-- `DataQualityGate._check_quality_scores`: average the `quality_score`
of labels carrying one; failing that, fall back to per-label mean
detection confidence; with no data at all the check passes. -/
def check_quality_scores (labels : List PseudoLabel) : GateCheck :=
  let quality_scores := labels.filterMap (fun l => l.quality_score)
  let quality_scores :=
    if quality_scores = [] then
      (labels.filter (fun l => !l.detections.isEmpty)).map (fun l =>
        (l.detections.map (·.confidence)).sum / (l.detections.length : ℚ))
    else quality_scores
  if quality_scores = [] then
    { name := ("quality_score"), passed := true, value := 0,
      threshold := MIN_QUALITY_SCORE }
  else
    let avg_quality := quality_scores.sum / (quality_scores.length : ℚ)
    { name := ("quality_score"),
      passed := decide (MIN_QUALITY_SCORE ≤ avg_quality),
      value := avg_quality,
      threshold := MIN_QUALITY_SCORE }

/-- `DataQualityGate._check_class_balance`: ratio of the most common to
the least common class count.  The source's `least_common == 0` branch
(ratio `inf`, check fails) is unreachable, since counted classes occur at
least once; it is kept as the `failed` fallback. -/
def check_class_balance (labels : List PseudoLabel) : GateCheck :=
  let class_counts := countAll ((labels.map (fun l =>
    l.detections.map (·.class_id))).flatten)
  if class_counts.length ≤ 1 then
    { name := ("class_balance"), passed := true, value := 1,
      threshold := MAX_CLASS_IMBALANCE_FACTOR }
  else
    let counts := class_counts.map Prod.snd
    let most_common := counts.foldr max 0
    let least_common := counts.foldr min most_common
    if least_common = 0 then
      { name := ("class_balance"), passed := false, value := 0,
        threshold := MAX_CLASS_IMBALANCE_FACTOR }
    else
      let ratio := (most_common : ℚ) / (least_common : ℚ)
      { name := ("class_balance"),
        passed := decide (ratio ≤ MAX_CLASS_IMBALANCE_FACTOR),
        value := ratio,
        threshold := MAX_CLASS_IMBALANCE_FACTOR }

/-- Keys of the feature distribution built by
`_extract_distribution_features`. -/
inductive FeatKey
  | cls (id : ℤ)
  | spatial (x y : ℤ)
  | avgConf
  | avgDetPerImage
deriving DecidableEq

/-- `DataQualityGate._extract_distribution_features`: normalized class
histogram, normalized 3×3 spatial-bin histogram, mean confidence and mean
detections per image. -/
def extract_distribution_features (labels : List PseudoLabel) :
    List (FeatKey × ℚ) :=
  let dets := (labels.map (·.detections)).flatten
  let class_counts := countAll (dets.map (·.class_id))
  let spatial_bins := countAll (dets.map (fun det =>
    (pyTruncInt (det.x * 3), pyTruncInt (det.y * 3))))
  let total_detections := dets.length
  let total_confidence := (dets.map (·.confidence)).sum
  class_counts.map (fun p => (FeatKey.cls p.1, (p.2 : ℚ) / (max total_detections 1 : ℕ)))
    ++ spatial_bins.map (fun p =>
        (FeatKey.spatial p.1.1 p.1.2, (p.2 : ℚ) / (max total_detections 1 : ℕ)))
    ++ [(FeatKey.avgConf, total_confidence / (max total_detections 1 : ℕ)),
        (FeatKey.avgDetPerImage,
          (total_detections : ℚ) / (max labels.length 1 : ℕ))]

/-- `DataQualityGate._compute_distribution_divergence`: mean absolute
difference over the union of feature keys, clamped to [0, 1]. -/
def compute_distribution_divergence
    (dist_a dist_b : List (FeatKey × ℚ)) : ℚ :=
  let all_keys := (dist_a.map Prod.fst ++ dist_b.map Prod.fst).dedup
  if all_keys = [] then 1
  else
    let total_diff := (all_keys.map (fun k =>
      |alGet dist_a k 0 - alGet dist_b k 0|)).sum
    let avg_diff := total_diff / (all_keys.length : ℚ)
    min (max avg_diff 0) 1

/-- `DataQualityGate._check_diversity`: `not existing_labels` (None or an
empty list) passes by default. -/
def check_diversity (new_labels : List PseudoLabel)
    (existing_labels : Option (List PseudoLabel)) : GateCheck :=
  match existing_labels with
  | none =>
    { name := ("diversity"), passed := true, value := 1,
      threshold := MIN_DIVERSITY_SCORE }
  | some [] =>
    { name := ("diversity"), passed := true, value := 1,
      threshold := MIN_DIVERSITY_SCORE }
  | some existing =>
    let new_features := extract_distribution_features new_labels
    let existing_features := extract_distribution_features existing
    let diversity := compute_distribution_divergence new_features existing_features
    { name := ("diversity"),
      passed := decide (MIN_DIVERSITY_SCORE ≤ diversity),
      value := diversity,
      threshold := MIN_DIVERSITY_SCORE }

/-- `DataQualityGate._compute_sample_hash`: detections sorted by class id
(stable), each reduced to `(class_id, round(x,1), round(y,1), round(w,1),
round(h,1))`.  The MD5 digest of the rendered feature string is modelled
by the feature-tuple list itself (collision-free stand-in). -/
def compute_sample_hash (label : PseudoLabel) : List (ℤ × ℚ × ℚ × ℚ × ℚ) :=
  (isort (fun d e => decide (d.class_id ≤ e.class_id)) label.detections).map
    (fun det => (det.class_id, pyRound 1 det.x, pyRound 1 det.y,
      pyRound 1 det.width, pyRound 1 det.height))

/-- The duplicate-counting loop of `_check_duplicates`. -/
def dupLoop : List PseudoLabel → List (List (ℤ × ℚ × ℚ × ℚ × ℚ)) → ℕ
  | [], _ => 0
  | l :: rest, hashes =>
    let feature_str := compute_sample_hash l
    if feature_str ∈ hashes then 1 + dupLoop rest hashes
    else dupLoop rest (feature_str :: hashes)

/-- `DataQualityGate._check_duplicates`. -/
def check_duplicates (labels : List PseudoLabel) : GateCheck :=
  if labels.length < 2 then
    { name := ("duplicates"), passed := true, value := 0,
      threshold := MAX_DUPLICATE_FRACTION }
  else
    let duplicates := dupLoop labels []
    let dup_frac := (duplicates : ℚ) / (labels.length : ℚ)
    { name := ("duplicates"),
      passed := decide (dup_frac ≤ MAX_DUPLICATE_FRACTION),
      value := dup_frac,
      threshold := MAX_DUPLICATE_FRACTION }

/-- `DataQualityGate.check`: run all five checks; the gate passes iff the
failure list is empty. -/
def check (pseudo_labels : List PseudoLabel)
    (existing_labels : Option (List PseudoLabel) := none) : GateResult :=
  let checks := [check_sample_count pseudo_labels,
                 check_quality_scores pseudo_labels,
                 check_class_balance pseudo_labels,
                 check_diversity pseudo_labels existing_labels,
                 check_duplicates pseudo_labels]
  let failures := checks.filter (fun c => !c.passed)
  let passed := failures.length = 0
  { passed := passed, checks := checks, failures := failures }

end DataQualityGate

/-- Claim C4: `DataQualityGate.check` returns `passed = true` iff every
one of its five individual checks passed, and `passed = false` iff at
least one individual check failed. -/
theorem gate_passed_iff_all_checks (pseudo_labels : List PseudoLabel)
    (existing_labels : Option (List PseudoLabel)) :
    ((DataQualityGate.check pseudo_labels existing_labels).passed = true ↔
      ∀ c ∈ (DataQualityGate.check pseudo_labels existing_labels).checks,
        c.passed = true) ∧
    ((DataQualityGate.check pseudo_labels existing_labels).passed = false ↔
      ∃ c ∈ (DataQualityGate.check pseudo_labels existing_labels).checks,
        c.passed = false) ∧
    (DataQualityGate.check pseudo_labels existing_labels).checks.length = 5 := by
  unfold DataQualityGate.check
  dsimp only
  refine ⟨?_, ?_, rfl⟩
  · constructor
    · intro h c hc
      rw [decide_eq_true_eq, List.length_eq_zero] at h
      by_contra hcp
      have : c ∈ List.filter (fun c => !c.passed) _ :=
        List.mem_filter.mpr ⟨hc, by simp [Bool.eq_false_iff.mpr hcp]⟩
      rw [h] at this
      exact absurd this (List.not_mem_nil c)
    · intro h
      rw [decide_eq_true_eq, List.length_eq_zero, List.filter_eq_nil_iff]
      intro c hc
      simp [h c hc]
  · constructor
    · intro h
      rw [decide_eq_false_iff_not, List.length_eq_zero] at h
      rcases List.exists_mem_of_ne_nil _ h with ⟨c, hc⟩
      have := List.mem_filter.mp hc
      exact ⟨c, this.1, by simpa using this.2⟩
    · intro ⟨c, hc, hcf⟩
      rw [decide_eq_false_iff_not, List.length_eq_zero]
      intro hnil
      have : c ∈ List.filter (fun c => !c.passed) _ :=
        List.mem_filter.mpr ⟨hc, by simp [hcf]⟩
      rw [hnil] at this
      exact absurd this (List.not_mem_nil c)

/-! ## Inference agent uncertainty analysis (`inference_agent.py`)

One prediction record per image; only its detections' confidences feed the
uncertainty metrics.  The `entropy_score` and `std_confidence` fields of
the source involve `log2` and `sqrt` over the reals; they are not
referenced by any verified property and are omitted from the embedded
record. -/

namespace InferenceAgent

def UNCERTAINTY_THRESHOLD : ℚ := 0.3

def LOW_CONFIDENCE_THRESHOLD : ℚ := 0.5

def BOUNDARY_CONFIDENCE_LO : ℚ := 0.4

def BOUNDARY_CONFIDENCE_HI : ℚ := 0.6

def HIGH_VALUE_FRAC_THRESHOLD : ℚ := 0.2

/-- The uncertainty metrics dictionary (see the namespace comment for
omitted fields). -/
structure UncertaintyMetrics where
  mean_confidence : ℚ
  uncertainty_score : ℚ
  low_confidence_frac : ℚ
  boundary_sample_frac : ℚ
  total_detections : ℕ
  requires_more_data : Bool
  priority : String
deriving DecidableEq

/-- `InferenceAgent._determine_priority`: weighted decision score
`0.4·uncertainty + 0.35·low_conf_ratio + 0.25·boundary_ratio`, mapped to
high (> 0.4), medium (> 0.25) or low. -/
def determine_priority (uncertainty low_conf_frac boundary_frac : ℚ) : String :=
  let score := uncertainty * 0.4 + low_conf_frac * 0.35 + boundary_frac * 0.25
  if score > 0.4 then ("high")
  else if score > 0.25 then ("medium")
  else ("low")

/-- All detection confidences of a prediction list, in order. -/
def confidenceScores (predictions : List (List Detection)) : List ℚ :=
  (predictions.map (fun dets => dets.map (·.confidence))).flatten

/-- `InferenceAgent._calculate_uncertainty`: confidence statistics plus the
active-learning priority; an empty detection set is treated as maximal
uncertainty. -/
def calculate_uncertainty (predictions : List (List Detection)) :
    UncertaintyMetrics :=
  let confidence_scores := confidenceScores predictions
  let total_detections := confidence_scores.length
  let low_confidence_count :=
    confidence_scores.countP (fun c => decide (c < LOW_CONFIDENCE_THRESHOLD))
  let boundary_sample_count :=
    confidence_scores.countP (fun c =>
      decide (BOUNDARY_CONFIDENCE_LO < c ∧ c < BOUNDARY_CONFIDENCE_HI))
  if confidence_scores = [] then
    { mean_confidence := 0,
      uncertainty_score := 1,
      low_confidence_frac := 1,
      boundary_sample_frac := 0,
      total_detections := 0,
      requires_more_data := true,
      priority := ("high") }
  else
    let mean_conf := confidence_scores.sum / (confidence_scores.length : ℚ)
    let uncertainty_score := 1 - mean_conf
    let low_conf_frac := (low_confidence_count : ℚ) / (confidence_scores.length : ℚ)
    let boundary_frac := (boundary_sample_count : ℚ) / (confidence_scores.length : ℚ)
    let requires_more_data :=
      decide (uncertainty_score > UNCERTAINTY_THRESHOLD) ||
      decide (low_conf_frac > HIGH_VALUE_FRAC_THRESHOLD) ||
      decide (boundary_frac > HIGH_VALUE_FRAC_THRESHOLD)
    let priority := determine_priority uncertainty_score low_conf_frac boundary_frac
    { mean_confidence := pyRound 4 mean_conf,
      uncertainty_score := pyRound 4 uncertainty_score,
      low_confidence_frac := pyRound 4 low_conf_frac,
      boundary_sample_frac := pyRound 4 boundary_frac,
      total_detections := total_detections,
      requires_more_data := requires_more_data,
      priority := priority }

end InferenceAgent

/-- Claim C8: the analyzer's priority equals the mapping of the weighted
score `0.4·uncertainty + 0.35·low_confidence_ratio + 0.25·boundary_ratio`
(> 0.4 → high, > 0.25 → medium, else low) computed on the unrounded
statistics, and the empty detection list yields `uncertainty_score = 1`
and priority high. -/
theorem uncertainty_priority_mapping (predictions : List (List Detection)) :
    (InferenceAgent.confidenceScores predictions ≠ [] →
      (InferenceAgent.calculate_uncertainty predictions).priority =
        (let cs := InferenceAgent.confidenceScores predictions
         let u := 1 - cs.sum / (cs.length : ℚ)
         let lc := ((cs.countP (fun c => decide (c < 0.5)) : ℕ) : ℚ) / (cs.length : ℚ)
         let bd := ((cs.countP (fun c => decide ((0.4:ℚ) < c ∧ c < 0.6)) : ℕ) : ℚ)
           / (cs.length : ℚ)
         let score := u * 0.4 + lc * 0.35 + bd * 0.25
         if score > 0.4 then ("high")
         else if score > 0.25 then ("medium")
         else ("low"))) ∧
    (InferenceAgent.confidenceScores predictions = [] →
      (InferenceAgent.calculate_uncertainty predictions).uncertainty_score = 1 ∧
      (InferenceAgent.calculate_uncertainty predictions).priority = ("high")) := by
  constructor
  · intro hne
    unfold InferenceAgent.calculate_uncertainty
    rw [if_neg hne]
    rfl
  · intro he
    unfold InferenceAgent.calculate_uncertainty
    rw [if_pos he]
    exact ⟨rfl, rfl⟩

/-- Witness for `uncertainty_priority_mapping` at a concrete
two-detection prediction list. -/
theorem uncertainty_priority_mapping_witness :
    (InferenceAgent.confidenceScores
        [[{ class_id := 0, x := 0, y := 0, width := 0, height := 0,
            confidence := 9/10 },
          { class_id := 1, x := 0, y := 0, width := 0, height := 0,
            confidence := 2/10 }]] ≠ []) ∧
    (InferenceAgent.calculate_uncertainty
        [[{ class_id := 0, x := 0, y := 0, width := 0, height := 0,
            confidence := 9/10 },
          { class_id := 1, x := 0, y := 0, width := 0, height := 0,
            confidence := 2/10 }]]).priority =
      (let cs := InferenceAgent.confidenceScores
          [[{ class_id := 0, x := 0, y := 0, width := 0, height := 0,
              confidence := 9/10 },
            { class_id := 1, x := 0, y := 0, width := 0, height := 0,
              confidence := 2/10 }]]
       let u := 1 - cs.sum / (cs.length : ℚ)
       let lc := ((cs.countP (fun c => decide (c < 0.5)) : ℕ) : ℚ) / (cs.length : ℚ)
       let bd := ((cs.countP (fun c => decide ((0.4:ℚ) < c ∧ c < 0.6)) : ℕ) : ℚ)
         / (cs.length : ℚ)
       let score := u * 0.4 + lc * 0.35 + bd * 0.25
       if score > 0.4 then ("high")
       else if score > 0.25 then ("medium")
       else ("low")) := by
  have hne : InferenceAgent.confidenceScores
      [[{ class_id := 0, x := 0, y := 0, width := 0, height := 0,
          confidence := 9/10 },
        { class_id := 1, x := 0, y := 0, width := 0, height := 0,
          confidence := 2/10 }]] ≠ [] := by
    unfold InferenceAgent.confidenceScores
    simp
  exact ⟨hne, (uncertainty_priority_mapping _).1 hne⟩

/-! ## Evaluation agent (`evaluation_agent.py`)

Comparison with best, calibration estimate, overfitting and forgetting
detection, and the continuation decision. -/

namespace EvaluationAgent

def MAP50_IMPROVEMENT_THRESHOLD : ℚ := 0.005

def MAP50_DEGRADATION_WARNING : ℚ := -0.02

def MAP50_DEGRADATION_CRITICAL : ℚ := -0.05

def OVERFITTING_GAP_THRESHOLD : ℚ := 0.20

def CALIBRATION_ECE_THRESHOLD : ℚ := 0.15

def MAX_ROUNDS_WITHOUT_IMPROVEMENT : ℕ := 2

def FORGETTING_THRESHOLD : ℚ := -0.10

/-- Severity labels of `_compare_with_best`. -/
inductive CompSeverity
  | normal
  | warning
  | critical
  | improved
deriving DecidableEq

/-- Result of `_compare_with_best`.  The first-round dictionary carries no
`severity` key; that is `severity = none`.  Presentation `summary`
omitted. -/
structure ComparisonResult where
  is_first_round : Bool
  is_improved : Bool
  severity : Option CompSeverity
  mAP50_delta : ℚ
  mAP50_95_delta : ℚ
  val_loss_delta : ℚ
  val_loss_increase_pct : ℚ
  precision_delta : ℚ
  recall_delta : ℚ
deriving DecidableEq

/-- `EvaluationAgent._compare_with_best`.  `not best or not
best.get("mAP50")` is modelled by `best.mAP50 = 0`: an absent key reads as
the 0.0 default, and the empty dict is the all-zero record. -/
def compare_with_best (current best : EvalMetrics) : ComparisonResult :=
  if best.mAP50 = 0 then
    { is_first_round := true, is_improved := true, severity := none,
      mAP50_delta := 0, mAP50_95_delta := 0, val_loss_delta := 0,
      val_loss_increase_pct := 0, precision_delta := 0, recall_delta := 0 }
  else
    let mAP50_delta := current.mAP50 - best.mAP50
    let mAP50_95_delta := current.mAP50_95 - best.mAP50_95
    let val_loss_delta := current.val_loss - best.val_loss
    let precision_delta := current.precision - best.precision
    let recall_delta := current.recall' - best.recall'
    let is_improved := decide (mAP50_delta ≥ MAP50_IMPROVEMENT_THRESHOLD)
    let severity :=
      if mAP50_delta ≤ MAP50_DEGRADATION_CRITICAL then CompSeverity.critical
      else if mAP50_delta ≤ MAP50_DEGRADATION_WARNING then CompSeverity.warning
      else if is_improved then CompSeverity.improved
      else CompSeverity.normal
    let val_loss_increase_pct :=
      if 0 < best.val_loss then val_loss_delta / best.val_loss else 0
    { is_first_round := false,
      is_improved := is_improved,
      severity := some severity,
      mAP50_delta := pyRound 6 mAP50_delta,
      mAP50_95_delta := pyRound 6 mAP50_95_delta,
      val_loss_delta := pyRound 6 val_loss_delta,
      val_loss_increase_pct := pyRound 4 val_loss_increase_pct,
      precision_delta := pyRound 6 precision_delta,
      recall_delta := pyRound 6 recall_delta }

/-- Result of `_compute_calibration_metrics`. -/
structure CalibrationMetrics where
  ece : ℚ
  mce : ℚ
  is_well_calibrated : Bool
  calibration_quality : String
deriving DecidableEq

/-- `EvaluationAgent._compute_calibration_metrics`: simplified ECE/MCE
estimates from precision, recall and mAP50. -/
def compute_calibration_metrics (metrics : EvalMetrics) : CalibrationMetrics :=
  let ece_estimate :=
    if 0 < metrics.precision ∧ 0 < metrics.mAP50 then
      |metrics.precision - metrics.mAP50| * 0.5
    else 0
  let mce_estimate :=
    if 0 < metrics.precision ∧ 0 < metrics.mAP50 then
      max |metrics.precision - metrics.mAP50| |metrics.recall' - metrics.mAP50| * 0.5
    else 0
  { ece := pyRound 4 ece_estimate,
    mce := pyRound 4 mce_estimate,
    is_well_calibrated := decide (ece_estimate < CALIBRATION_ECE_THRESHOLD),
    calibration_quality :=
      if ece_estimate < 0.05 then ("good")
      else if ece_estimate < CALIBRATION_ECE_THRESHOLD then ("moderate")
      else ("poor") }

/-- Result of `_detect_overfitting` (presentation `reason` omitted). -/
structure OverfittingReport where
  detected : Bool
  gap : ℚ
  gap_frac : ℚ
deriving DecidableEq

/-- `EvaluationAgent._detect_overfitting`: a single 0.20 threshold on
`(val_loss − train_loss) / train_loss`, strict comparison; non-positive
losses skip the check. -/
def detect_overfitting (metrics : EvalMetrics) : OverfittingReport :=
  if metrics.train_loss ≤ 0 ∨ metrics.val_loss ≤ 0 then
    { detected := false, gap := 0, gap_frac := 0 }
  else
    let gap := metrics.val_loss - metrics.train_loss
    let gap_frac := if 0 < metrics.train_loss then gap / metrics.train_loss else 0
    let is_overfitting := decide (gap_frac > OVERFITTING_GAP_THRESHOLD)
    { detected := is_overfitting,
      gap := pyRound 6 gap,
      gap_frac := pyRound 4 gap_frac }

/-- Result of `_detect_catastrophic_forgetting` (affected-class details
reduced to names). -/
structure ForgettingReport where
  detected : Bool
  affected_classes : List String
  num_affected : ℕ
deriving DecidableEq

/-- `EvaluationAgent._detect_catastrophic_forgetting`. -/
def detect_catastrophic_forgetting
    (current_per_class best_per_class : List (String × ℚ)) : ForgettingReport :=
  if current_per_class = [] ∨ best_per_class = [] then
    { detected := false, affected_classes := [], num_affected := 0 }
  else
    let affected_classes := (best_per_class.filter (fun p =>
      decide (0 < p.2) &&
      decide ((alGet current_per_class p.1 0 - p.2) / p.2 < FORGETTING_THRESHOLD))).map
        Prod.fst
    { detected := decide (0 < affected_classes.length),
      affected_classes := affected_classes,
      num_affected := affected_classes.length }

/-- `EvaluationAgent._make_continuation_decision`: the priority cascade
(critical → rollback, forgetting ≥ 2 → rollback, overfitting → stop, no
improvement for `MAX_ROUNDS_WITHOUT_IMPROVEMENT` rounds → stop, warning →
continue cautiously, improved / first round / stable → continue).  Note
that neither `round_number` nor the calibration metrics influence the
outcome. -/
def make_continuation_decision (comparison : ComparisonResult)
    (calibration : CalibrationMetrics) (overfitting : OverfittingReport)
    (forgetting : ForgettingReport) (round_number : ℕ)
    (rounds_without_improvement : ℕ) : ContinuationDecision :=
  if comparison.severity = some CompSeverity.critical then
    { should_continue := false, should_rollback := true,
      action := ("rollback"), confidence := 0.95 }
  else if forgetting.detected ∧ 2 ≤ forgetting.num_affected then
    { should_continue := false, should_rollback := true,
      action := ("rollback"), confidence := 0.90 }
  else if overfitting.detected then
    { should_continue := false, should_rollback := false,
      action := ("stop"), confidence := 0.85 }
  else if MAX_ROUNDS_WITHOUT_IMPROVEMENT ≤ rounds_without_improvement then
    { should_continue := false, should_rollback := false,
      action := ("stop"), confidence := 0.80 }
  else if comparison.severity = some CompSeverity.warning then
    { should_continue := true, should_rollback := false,
      action := ("continue_cautious"), confidence := 0.60 }
  else if comparison.is_improved then
    { should_continue := true, should_rollback := false,
      action := ("continue"), confidence := 0.85 }
  else if comparison.is_first_round then
    { should_continue := true, should_rollback := false,
      action := ("continue"), confidence := 0.75 }
  else
    { should_continue := true, should_rollback := false,
      action := ("continue"), confidence := 0.65 }

/-- Steps 3–6 of `EvaluationAgent.execute`: derive the continuation
decision from the metrics of the current round and the historical best. -/
def evaluationDecision (current best : EvalMetrics) (round_number : ℕ)
    (rounds_without_improvement : ℕ) : ContinuationDecision :=
  make_continuation_decision
    (compare_with_best current best)
    (compute_calibration_metrics current)
    (detect_overfitting current)
    (detect_catastrophic_forgetting current.per_class best.per_class)
    round_number rounds_without_improvement

end EvaluationAgent

/-! ## Model guardian (`model_guardian.py`)

Five health checks aggregated into a report with the rollback verdict. -/

namespace ModelGuardian

inductive HealthSeverity
  | healthy
  | warning
  | critical
deriving DecidableEq

/-- Single health check result (presentation `message`/`details`
omitted). -/
structure HealthCheck where
  name : String
  passed : Bool
  severity : HealthSeverity
deriving DecidableEq

/-- The comprehensive model health report (presentation `recommendation`
omitted). -/
structure ModelHealthReport where
  is_healthy : Bool
  should_rollback : Bool
  is_improved : Bool
  is_overfitting : Bool
  has_forgetting : Bool
  can_improve_further : Bool
  overall_severity : HealthSeverity
  checks : List HealthCheck
deriving DecidableEq

def MAP50_DEGRADATION_WARNING : ℚ := -0.02

def MAP50_DEGRADATION_CRITICAL : ℚ := -0.05

def VAL_LOSS_INCREASE_WARNING : ℚ := 0.10

def VAL_LOSS_INCREASE_CRITICAL : ℚ := 0.25

def OVERFITTING_GAP_WARNING : ℚ := 0.15

def OVERFITTING_GAP_CRITICAL : ℚ := 0.25

def CALIBRATION_ECE_WARNING : ℚ := 0.10

def CALIBRATION_ECE_CRITICAL : ℚ := 0.20

def FORGETTING_PER_CLASS_THRESHOLD : ℚ := -0.10

def FORGETTING_MAX_AFFECTED_CLASSES : ℕ := 2

def MEANINGFUL_IMPROVEMENT : ℚ := 0.005

/-- `ModelGuardian._check_map_degradation`. -/
def check_map_degradation (current best : EvalMetrics) : HealthCheck :=
  if best.mAP50 = 0 then
    { name := ("map_degradation"), passed := true,
      severity := HealthSeverity.healthy }
  else
    let delta := current.mAP50 - best.mAP50
    if delta ≤ MAP50_DEGRADATION_CRITICAL then
      { name := ("map_degradation"), passed := false,
        severity := HealthSeverity.critical }
    else if delta ≤ MAP50_DEGRADATION_WARNING then
      { name := ("map_degradation"), passed := false,
        severity := HealthSeverity.warning }
    else
      { name := ("map_degradation"), passed := true,
        severity := HealthSeverity.healthy }

/-- `ModelGuardian._check_val_loss`. -/
def check_val_loss (current best : EvalMetrics) : HealthCheck :=
  if best.val_loss ≤ 0 ∨ current.val_loss ≤ 0 then
    { name := ("val_loss"), passed := true, severity := HealthSeverity.healthy }
  else
    let increase_pct := (current.val_loss - best.val_loss) / best.val_loss
    if increase_pct ≥ VAL_LOSS_INCREASE_CRITICAL then
      { name := ("val_loss"), passed := false, severity := HealthSeverity.critical }
    else if increase_pct ≥ VAL_LOSS_INCREASE_WARNING then
      { name := ("val_loss"), passed := false, severity := HealthSeverity.warning }
    else
      { name := ("val_loss"), passed := true, severity := HealthSeverity.healthy }

/-- `ModelGuardian._check_overfitting`: warning at a 0.15 gap ratio,
critical at 0.25, both non-strict (`>=`); non-positive losses pass. -/
def check_overfitting (metrics : EvalMetrics) : HealthCheck :=
  if metrics.train_loss ≤ 0 ∨ metrics.val_loss ≤ 0 then
    { name := ("overfitting"), passed := true, severity := HealthSeverity.healthy }
  else
    let gap_frac :=
      if 0 < metrics.train_loss then
        (metrics.val_loss - metrics.train_loss) / metrics.train_loss
      else 0
    if gap_frac ≥ OVERFITTING_GAP_CRITICAL then
      { name := ("overfitting"), passed := false, severity := HealthSeverity.critical }
    else if gap_frac ≥ OVERFITTING_GAP_WARNING then
      { name := ("overfitting"), passed := false, severity := HealthSeverity.warning }
    else
      { name := ("overfitting"), passed := true, severity := HealthSeverity.healthy }

/-- `ModelGuardian._check_calibration`. -/
def check_calibration (metrics : EvalMetrics) : HealthCheck :=
  if metrics.precision ≤ 0 ∨ metrics.mAP50 ≤ 0 then
    { name := ("calibration"), passed := true, severity := HealthSeverity.healthy }
  else
    let ece_estimate := |metrics.precision - metrics.mAP50| * 0.5
    if ece_estimate ≥ CALIBRATION_ECE_CRITICAL then
      { name := ("calibration"), passed := false, severity := HealthSeverity.critical }
    else if ece_estimate ≥ CALIBRATION_ECE_WARNING then
      { name := ("calibration"), passed := false, severity := HealthSeverity.warning }
    else
      { name := ("calibration"), passed := true, severity := HealthSeverity.healthy }

/-- `ModelGuardian._check_catastrophic_forgetting`. -/
def check_catastrophic_forgetting (current best : EvalMetrics) : HealthCheck :=
  if current.per_class = [] ∨ best.per_class = [] then
    { name := ("catastrophic_forgetting"), passed := true,
      severity := HealthSeverity.healthy }
  else
    let affected := best.per_class.filter (fun p =>
      decide (0 < p.2) &&
      decide ((alGet current.per_class p.1 0 - p.2) / p.2
        < FORGETTING_PER_CLASS_THRESHOLD))
    if FORGETTING_MAX_AFFECTED_CLASSES < affected.length then
      { name := ("catastrophic_forgetting"), passed := false,
        severity := HealthSeverity.critical }
    else if 0 < affected.length then
      { name := ("catastrophic_forgetting"), passed := false,
        severity := HealthSeverity.warning }
    else
      { name := ("catastrophic_forgetting"), passed := true,
        severity := HealthSeverity.healthy }

/-- `ModelGuardian.check_model_health`: run the five checks and aggregate
(`should_rollback = has_critical AND round_number > 1`). -/
def check_model_health (current_metrics best_metrics : EvalMetrics)
    (round_number : ℕ := 1) (rounds_without_improvement : ℕ := 0) :
    ModelHealthReport :=
  let checks := [check_map_degradation current_metrics best_metrics,
                 check_val_loss current_metrics best_metrics,
                 check_overfitting current_metrics,
                 check_calibration current_metrics,
                 check_catastrophic_forgetting current_metrics best_metrics]
  let has_critical := checks.any (fun c => c.severity = HealthSeverity.critical)
  let has_warning := checks.any (fun c => c.severity = HealthSeverity.warning)
  let all_passed := checks.all (fun c => c.passed)
  let mAP50_delta :=
    if best_metrics.mAP50 = 0 then 0
    else current_metrics.mAP50 - best_metrics.mAP50
  let is_improved :=
    decide (mAP50_delta ≥ MEANINGFUL_IMPROVEMENT) || decide (best_metrics.mAP50 = 0)
  let is_overfitting := !(check_overfitting current_metrics).passed
  let has_forgetting := !(check_catastrophic_forgetting current_metrics best_metrics).passed
  let should_rollback := has_critical && decide (1 < round_number)
  let can_improve :=
    !is_overfitting && !has_critical && decide (rounds_without_improvement < 3)
  let severity :=
    if has_critical then HealthSeverity.critical
    else if has_warning then HealthSeverity.warning
    else HealthSeverity.healthy
  { is_healthy := all_passed,
    should_rollback := should_rollback,
    is_improved := is_improved,
    is_overfitting := is_overfitting,
    has_forgetting := has_forgetting,
    can_improve_further := can_improve,
    overall_severity := severity,
    checks := checks }

end ModelGuardian

/-- Metrics of the specification's rollback scenario: current mAP50 0.40
against best 0.46. -/
def exampleCurrentMetrics : EvalMetrics :=
  { mAP50 := 40/100, mAP50_95 := 0, precision := 0, recall' := 0,
    val_loss := 0, train_loss := 0, per_class := [] }

def exampleBestMetrics : EvalMetrics :=
  { mAP50 := 46/100, mAP50_95 := 0, precision := 0, recall' := 0,
    val_loss := 0, train_loss := 0, per_class := [] }

/-- Claim C2 counterexample: the evaluation agent's continuation decision
(unlike the guardian's report) never consults `round_number`; with a
critical mAP50 drop (0.40 vs best 0.46) it sets `should_rollback = true`
even at `round_number = 1`. -/
theorem evaluation_decision_rollback_round_one :
    (EvaluationAgent.evaluationDecision exampleCurrentMetrics
      exampleBestMetrics 1 0).should_rollback = true := by
  with_unfolding_all decide

/-- Claim C2 (amended): the ModelGuardian's health report never has
`should_rollback = true` when `round_number = 1`; for all metrics and
history, `should_rollback = has_critical AND round_number > 1` is false
at round 1.  (The evaluation agent's own continuation decision does not
satisfy this; see `evaluation_decision_rollback_round_one`.) -/
theorem guardian_no_rollback_round_one
    (current best : EvalMetrics) (rounds_without_improvement : ℕ) :
    (ModelGuardian.check_model_health current best 1
      rounds_without_improvement).should_rollback = false := by
  unfold ModelGuardian.check_model_health
  simp

/-- Metrics whose train/val loss gap ratio is 0.18: above the claimed
warning threshold 0.15 but below the agent's actual threshold 0.20. -/
def exampleMidGapMetrics : EvalMetrics :=
  { mAP50 := 0, mAP50_95 := 0, precision := 0, recall' := 0,
    val_loss := 118/100, train_loss := 1, per_class := [] }

/-- Claim C6 counterexample: at `gap_ratio = 0.18`, which exceeds the
claimed warning threshold 0.15, the evaluation agent's
`_detect_overfitting` does NOT flag overfitting — its only threshold is
the strict 0.20 of `OVERFITTING_GAP_THRESHOLD`. -/
theorem overfitting_midgap_not_flagged :
    (exampleMidGapMetrics.val_loss - exampleMidGapMetrics.train_loss)
        / exampleMidGapMetrics.train_loss = 18/100 ∧
    (18:ℚ)/100 > 15/100 ∧
    (EvaluationAgent.detect_overfitting exampleMidGapMetrics).detected = false := by
  refine ⟨by with_unfolding_all decide, by with_unfolding_all decide, ?_⟩
  with_unfolding_all decide

/-- Claim C6 (amended): with both losses positive, the evaluation agent's
`_detect_overfitting` flags overfitting iff `gap_ratio > 0.20` (a single
strict threshold), while the ModelGuardian's `_check_overfitting` fails
iff `gap_ratio ≥ 0.15` (warning) and is critical iff `gap_ratio ≥ 0.25`;
when either loss is not positive both checks pass by default. -/
theorem overfitting_thresholds (m : EvalMetrics) :
    (0 < m.train_loss ∧ 0 < m.val_loss →
      ((EvaluationAgent.detect_overfitting m).detected = true ↔
        (m.val_loss - m.train_loss) / m.train_loss > 20/100) ∧
      ((ModelGuardian.check_overfitting m).passed = false ↔
        (m.val_loss - m.train_loss) / m.train_loss ≥ 15/100) ∧
      ((ModelGuardian.check_overfitting m).severity
          = ModelGuardian.HealthSeverity.critical ↔
        (m.val_loss - m.train_loss) / m.train_loss ≥ 25/100)) ∧
    (m.train_loss ≤ 0 ∨ m.val_loss ≤ 0 →
      (EvaluationAgent.detect_overfitting m).detected = false ∧
      (ModelGuardian.check_overfitting m).passed = true) := by
  constructor
  · rintro ⟨ht, hv⟩
    have hne : ¬ (m.train_loss ≤ 0 ∨ m.val_loss ≤ 0) := by
      push_neg
      exact ⟨ht, hv⟩
    refine ⟨?_, ?_, ?_⟩
    · unfold EvaluationAgent.detect_overfitting
      rw [if_neg hne]
      dsimp only
      rw [if_pos ht]
      rw [decide_eq_true_eq]
      unfold EvaluationAgent.OVERFITTING_GAP_THRESHOLD
      norm_num
    · unfold ModelGuardian.check_overfitting
      rw [if_neg hne]
      dsimp only
      rw [if_pos ht]
      unfold ModelGuardian.OVERFITTING_GAP_CRITICAL ModelGuardian.OVERFITTING_GAP_WARNING
      split_ifs with h1 h2
      · simp only [iff_true]
        norm_num
        linarith
      · simp only [iff_true]
        norm_num
        linarith
      · simp only [Bool.true_eq_false, false_iff]
        norm_num
        linarith
    · unfold ModelGuardian.check_overfitting
      rw [if_neg hne]
      dsimp only
      rw [if_pos ht]
      unfold ModelGuardian.OVERFITTING_GAP_CRITICAL ModelGuardian.OVERFITTING_GAP_WARNING
      split_ifs with h1 h2
      · simp only [iff_true]
        norm_num
        linarith
      · constructor
        · intro hcon
          cases hcon
        · intro hge
          norm_num at h1
          linarith
      · constructor
        · intro hcon
          cases hcon
        · intro hge
          norm_num at h1
          linarith
  · intro h
    constructor
    · unfold EvaluationAgent.detect_overfitting
      rw [if_pos h]
    · unfold ModelGuardian.check_overfitting
      rw [if_pos h]

/-- Metrics with gap ratio 0.30, used to witness `overfitting_thresholds`:
flagged by both the agent (> 0.20) and the guardian (≥ 0.25, critical). -/
def exampleHighGapMetrics : EvalMetrics :=
  { mAP50 := 0, mAP50_95 := 0, precision := 0, recall' := 0,
    val_loss := 13/10, train_loss := 1, per_class := [] }

/-- Witness for `overfitting_thresholds` at concrete metrics with both
losses positive and gap ratio 0.30. -/
theorem overfitting_thresholds_witness :
    (0 < exampleHighGapMetrics.train_loss ∧ 0 < exampleHighGapMetrics.val_loss) ∧
    ((EvaluationAgent.detect_overfitting exampleHighGapMetrics).detected = true ↔
      (exampleHighGapMetrics.val_loss - exampleHighGapMetrics.train_loss)
        / exampleHighGapMetrics.train_loss > 20/100) := by
  have hp : 0 < exampleHighGapMetrics.train_loss ∧
      0 < exampleHighGapMetrics.val_loss := by
    constructor <;> norm_num [exampleHighGapMetrics]
  exact ⟨hp, ((overfitting_thresholds exampleHighGapMetrics).1 hp).1⟩

/-! ## Round controller (`workflow_graph.py`)

The EvoLoop state machine: `initialize_round_node` on the loop-back edge
and the post-evaluation conditional edge `should_continue_loop`.  The
state record carries the fields these two functions read or write; other
state-dict keys do not influence them. -/

namespace WorkflowGraph

def DEFAULT_MAX_ROUNDS : ℕ := 5

/-- The slice of the LangGraph `AgentState` dict read or written by the
round-control functions.  `round_number`/`max_rounds` are `none` before
the first `initialize_round_node` call; an absent or empty
`continuation_decision` reads as all-false. -/
structure EvoState where
  round_number : Option ℕ
  max_rounds : Option ℕ
  rounds_without_improvement : ℕ
  best_metrics : EvalMetrics
  best_model_path : String
  acquired_images : List String
  pseudo_labels : List PseudoLabel
  crawled_count : ℕ
  search_keywords : List String
  evaluation_metrics : Option EvalMetrics
  continuation_decision : ContinuationDecision
deriving DecidableEq

/-- `workflow_graph.initialize_round_node`: first call initializes round 1
(`state.get("max_rounds") or DEFAULT_MAX_ROUNDS`: `None` and `0` both fall
back to the default); later calls increment `round_number` and clear the
per-round working state. -/
def initialize_round_node (state : EvoState) : EvoState :=
  match state.round_number with
  | none =>
    { state with
      round_number := some 1,
      max_rounds := some (match state.max_rounds with
        | none => DEFAULT_MAX_ROUNDS
        | some 0 => DEFAULT_MAX_ROUNDS
        | some m => m),
      rounds_without_improvement := 0,
      best_metrics := empty_metrics,
      best_model_path := ("") }
  | some round_number =>
    { state with
      round_number := some (round_number + 1),
      acquired_images := [],
      pseudo_labels := [],
      crawled_count := 0,
      search_keywords := [],
      evaluation_metrics := none,
      continuation_decision :=
        { should_continue := false, should_rollback := false,
          action := (""), confidence := 0 } }

/-- Routes of the post-evaluation conditional edge. -/
inductive LoopRoute
  | next_round
  | finalize
deriving DecidableEq

/-- `workflow_graph.should_continue_loop`: finalize on rollback, on a
negative continuation decision, or once `round_number ≥ max_rounds`;
otherwise loop to the next round. -/
def should_continue_loop (state : EvoState) : LoopRoute :=
  let decision := state.continuation_decision
  let round_number := state.round_number.getD 1
  let max_rounds := state.max_rounds.getD DEFAULT_MAX_ROUNDS
  if decision.should_rollback then LoopRoute.finalize
  else if !decision.should_continue then LoopRoute.finalize
  else if max_rounds ≤ round_number then LoopRoute.finalize
  else LoopRoute.next_round

/-- One EVALUATE → (NEXT_ROUND | FINALIZE) step of the compiled graph:
`some` is the NEXT_ROUND edge (routing back through
`initialize_round_node`), `none` is FINALIZE. -/
def evoLoopStep (state : EvoState) : Option EvoState :=
  match should_continue_loop state with
  | LoopRoute.finalize => none
  | LoopRoute.next_round => some (initialize_round_node state)

end WorkflowGraph

/-- Claim C3: the loop takes EVALUATE → NEXT_ROUND iff `should_rollback`
is false AND `should_continue` is true AND `round_number < max_rounds`;
each NEXT_ROUND transition increments `round_number` by exactly 1, so the
round number strictly increases and never exceeds `max_rounds`. -/
theorem round_loop_guard_and_increment (s : WorkflowGraph.EvoState) (r m : ℕ)
    (hr : s.round_number = some r) (hm : s.max_rounds = some m) :
    (WorkflowGraph.should_continue_loop s = WorkflowGraph.LoopRoute.next_round ↔
      s.continuation_decision.should_rollback = false ∧
      s.continuation_decision.should_continue = true ∧ r < m) ∧
    (∀ s', WorkflowGraph.evoLoopStep s = some s' →
      s'.round_number = some (r + 1) ∧ r < m ∧ r + 1 ≤ m ∧
      s'.max_rounds = some m) := by
  have hguard : WorkflowGraph.should_continue_loop s
      = WorkflowGraph.LoopRoute.next_round ↔
      s.continuation_decision.should_rollback = false ∧
      s.continuation_decision.should_continue = true ∧ r < m := by
    unfold WorkflowGraph.should_continue_loop
    rw [hr, hm]
    dsimp only [Option.getD_some]
    constructor
    · intro h
      split_ifs at h with h1 h2 h3
      refine ⟨by simpa using h1, by simpa using h2, by omega⟩
    · rintro ⟨h1, h2, h3⟩
      rw [if_neg (by simp [h1]), if_neg (by simp [h2]), if_neg (by omega)]
  constructor
  · exact hguard
  · intro s' hstep
    unfold WorkflowGraph.evoLoopStep at hstep
    rcases hroute : WorkflowGraph.should_continue_loop s with _ | _
    · rw [hroute] at hstep
      have hlt : r < m := (hguard.mp hroute).2.2
      have hs' : s' = WorkflowGraph.initialize_round_node s := by
        injection hstep with h
        exact h.symm
      subst hs'
      unfold WorkflowGraph.initialize_round_node
      rw [hr]
      exact ⟨rfl, hlt, by omega, hm⟩
    · rw [hroute] at hstep
      exact absurd hstep (by simp)

/-- A concrete state entering round 3 of 5 with a positive continuation
decision, used to witness `round_loop_guard_and_increment`. -/
def exampleLoopState : WorkflowGraph.EvoState :=
  { round_number := some 3,
    max_rounds := some 5,
    rounds_without_improvement := 0,
    best_metrics := empty_metrics,
    best_model_path := (""),
    acquired_images := [],
    pseudo_labels := [],
    crawled_count := 0,
    search_keywords := [],
    evaluation_metrics := none,
    continuation_decision :=
      { should_continue := true, should_rollback := false,
        action := ("continue"), confidence := 0.85 } }

/-- Witness for `round_loop_guard_and_increment` at `exampleLoopState`. -/
theorem round_loop_guard_and_increment_witness :
    exampleLoopState.round_number = some 3 ∧
    exampleLoopState.max_rounds = some 5 ∧
    (WorkflowGraph.should_continue_loop exampleLoopState
        = WorkflowGraph.LoopRoute.next_round ↔
      exampleLoopState.continuation_decision.should_rollback = false ∧
      exampleLoopState.continuation_decision.should_continue = true ∧ 3 < 5) := by
  refine ⟨rfl, rfl, ?_⟩
  exact (round_loop_guard_and_increment exampleLoopState 3 5 rfl rfl).1

/-! ## Holdout set management (`evaluation_agent.py`, Step 1 of `execute`)

`_setup_holdout_set` seeds a PRNG from an MD5 digest of the first 10
sorted paths and samples without replacement.  The digest-to-seed map and
the seeded sampler (`random.Random(seed).sample`) are deterministic pure
functions; they are abstracted as a `SampleEnv`, over which the theorems
quantify. -/

/-- SHA-256 hex digest, modelled as a collision-free stand-in returning
its input string (only equality of digests is ever observed). -/
def sha256Hex (s : String) : String := s

/-- The two deterministic external functions used by holdout creation:
`md5seed s = int(hashlib.md5(s.encode()).hexdigest()[:8], 16)` and
`sample seed pop k = random.Random(seed).sample(pop, k)`. -/
structure SampleEnv where
  md5seed : String → ℕ
  sample : ℕ → List String → ℕ → List String

namespace EvaluationAgent

/-- `EvaluationAgent._setup_holdout_set`: sort the image references, seed
from the first 10 sorted paths, sample `min(max(1, int(N·ratio)), N)`
images. -/
def setup_holdout_set (env : SampleEnv) (all_images : List String)
    (holdout_frac : ℚ := 15/100) : List String :=
  if all_images = [] then []
  else
    let sorted_images := pySorted all_images
    let seed_str := String.intercalate ("|") (sorted_images.take 10)
    let seed := env.md5seed seed_str
    let holdout_count :=
      max 1 (pyTruncInt ((sorted_images.length : ℚ) * holdout_frac)).toNat
    env.sample seed sorted_images (min holdout_count sorted_images.length)

/-- `EvaluationAgent._compute_set_hash`: SHA-256 of the sorted reference
list joined with `"|"`. -/
def compute_set_hash (image_paths : List String) : String :=
  sha256Hex (String.intercalate ("|") (pySorted image_paths))

/-- Step 1 of `EvaluationAgent.execute`: create the holdout set only when
it is absent and images are available, then recompute the content hash of
whatever set results.  No previously recorded hash is consulted anywhere,
and this step has no error path. -/
def holdout_step (env : SampleEnv) (holdout_set all_images : List String) :
    List String × String :=
  let holdout_set :=
    if holdout_set = [] ∧ all_images ≠ [] then setup_holdout_set env all_images
    else holdout_set
  (holdout_set, compute_set_hash holdout_set)

end EvaluationAgent

/-- A concrete sampling environment for witnesses: seed by string length,
sampler takes the first k elements (it satisfies the sampler's length
contract). -/
def takeEnv : SampleEnv :=
  { md5seed := fun s => s.length,
    sample := fun _ pop k => pop.take k }

/-- Claim C5: holdout creation is deterministic — it depends only on the
multiset of image references (everything is derived from the sorted list;
no wall-clock or external randomness), and it samples
`min(max(1, int(0.15·N)), N)` images. -/
theorem holdout_creation_deterministic (env : SampleEnv)
    (hsample : ∀ seed pop k, k ≤ pop.length → (env.sample seed pop k).length = k)
    (l₁ l₂ : List String) (hne : l₁ ≠ []) (hperm : l₁.Perm l₂) :
    EvaluationAgent.setup_holdout_set env l₁
      = EvaluationAgent.setup_holdout_set env l₂ ∧
    EvaluationAgent.compute_set_hash (EvaluationAgent.setup_holdout_set env l₁)
      = EvaluationAgent.compute_set_hash (EvaluationAgent.setup_holdout_set env l₂) ∧
    (EvaluationAgent.setup_holdout_set env l₁).length
      = min (max 1 (pyTruncInt ((l₁.length : ℚ) * (15/100))).toNat) l₁.length := by
  have hne₂ : l₂ ≠ [] := by
    intro h
    exact hne (List.Perm.eq_nil (h ▸ hperm))
  have hsorted : pySorted l₁ = pySorted l₂ := pySorted_eq_of_perm hperm
  have heq : EvaluationAgent.setup_holdout_set env l₁
      = EvaluationAgent.setup_holdout_set env l₂ := by
    unfold EvaluationAgent.setup_holdout_set
    rw [if_neg hne, if_neg hne₂, hsorted]
  refine ⟨heq, by rw [heq], ?_⟩
  unfold EvaluationAgent.setup_holdout_set
  rw [if_neg hne]
  dsimp only
  have hlen : (pySorted l₁).length = l₁.length := (pySorted_perm l₁).length_eq
  rw [hsample _ _ _ (min_le_right _ _), hlen]

/-- Witness for `holdout_creation_deterministic` at a concrete environment
and two permuted three-element reference lists. -/
theorem holdout_creation_deterministic_witness :
    (∀ seed pop k, k ≤ pop.length → (takeEnv.sample seed pop k).length = k) ∧
    (["b", "a", "c"] : List String) ≠ [] ∧
    (["b", "a", "c"] : List String).Perm ["c", "b", "a"] ∧
    EvaluationAgent.setup_holdout_set takeEnv ["b", "a", "c"]
      = EvaluationAgent.setup_holdout_set takeEnv ["c", "b", "a"] := by
  have hsample : ∀ seed pop k, k ≤ pop.length →
      ((takeEnv.sample seed pop k).length = k) := by
    intro seed pop k hk
    simp [takeEnv]
    omega
  have hne : (["b", "a", "c"] : List String) ≠ [] := by simp
  have hperm : (["b", "a", "c"] : List String).Perm ["c", "b", "a"] := by decide
  exact ⟨hsample, hne, hperm,
    (holdout_creation_deterministic takeEnv hsample _ _ hne hperm).1⟩

/-- Claim C1 counterexample: with a non-empty holdout set whose recomputed
content hash differs from a previously recorded hash ("recorded-hash"),
the evaluation step completes normally, keeps the set, and simply emits
the freshly recomputed hash — no comparison against the recorded hash
exists in the code, so a mismatch can never be detected, let alone be
fatal. -/
theorem holdout_hash_mismatch_not_fatal :
    EvaluationAgent.compute_set_hash ["b", "a"] ≠ ("recorded-hash") ∧
    EvaluationAgent.holdout_step takeEnv ["b", "a"] ["x"]
      = (["b", "a"], EvaluationAgent.compute_set_hash ["b", "a"]) ∧
    EvaluationAgent.compute_set_hash ["b", "a"] = ("a|b") := by
  refine ⟨by decide, by decide, by decide⟩

/-- Claim C1 (amended): the holdout step recomputes the content hash from
the current set on every round and never consults a recorded hash; a
non-empty set is passed through unchanged (never regenerated), and
creation happens exactly when the set is empty and images are available. -/
theorem holdout_hash_never_verified (env : SampleEnv)
    (holdout_set all_images : List String) :
    (holdout_set ≠ [] →
      EvaluationAgent.holdout_step env holdout_set all_images
        = (holdout_set, EvaluationAgent.compute_set_hash holdout_set)) ∧
    (holdout_set = [] → all_images ≠ [] →
      EvaluationAgent.holdout_step env holdout_set all_images
        = (EvaluationAgent.setup_holdout_set env all_images,
           EvaluationAgent.compute_set_hash
             (EvaluationAgent.setup_holdout_set env all_images))) ∧
    (holdout_set = [] → all_images = [] →
      EvaluationAgent.holdout_step env holdout_set all_images
        = (holdout_set, EvaluationAgent.compute_set_hash holdout_set)) := by
  refine ⟨?_, ?_, ?_⟩
  · intro hne
    unfold EvaluationAgent.holdout_step
    rw [if_neg (by simp [hne])]
  · intro he hne
    unfold EvaluationAgent.holdout_step
    rw [if_pos ⟨he, hne⟩]
  · intro he hie
    unfold EvaluationAgent.holdout_step
    rw [if_neg (by simp [hie])]

/-- Witness for `holdout_hash_never_verified` at a concrete non-empty
holdout set. -/
theorem holdout_hash_never_verified_witness :
    (["b", "a"] : List String) ≠ [] ∧
    EvaluationAgent.holdout_step takeEnv ["b", "a"] ["x"]
      = (["b", "a"], EvaluationAgent.compute_set_hash ["b", "a"]) := by
  have hne : (["b", "a"] : List String) ≠ [] := by simp
  exact ⟨hne, (holdout_hash_never_verified takeEnv ["b", "a"] ["x"]).1 hne⟩
